import Mathlib

/-!
Verification of the device power-management transition engine in
drivers/base/power/main.c (suspend/resume phase executors, callback
resolution, per-device phase flags, the denylist filter and the
failure-statistics bookkeeping).

The embedding is sequential: completions, list locks and the async task
pool are synchronization only, so a faithful sequential semantics runs
every per-device function synchronously at the point the drain (or the
dispatch) would have started it, and models the dependency waits
(dpm_wait_for_subordinate, dpm_wait_for_superior) as no-ops except for
the device-still-registered check of dpm_wait_for_superior.  The global
async_error flag is threaded explicitly through the per-device functions
and the drain loops, exactly as the C code reads and writes it.  Kernel
error codes are plain integers (0 is success, failures are negative).
-/

/-- PM transition events (the pm_message_t event codes used by this file).
evOn stands for PM_EVENT_ON, the default of resume_event. -/
inductive PMEvent where
  | suspend
  | resume
  | freeze
  | quiesce
  | hibernate
  | thaw
  | restore
  | recover
  | evOn
deriving Repr, DecidableEq

/-- A per-layer dev_pm_ops callback table.  A callback is modelled by the
integer it returns when invoked on the device at hand; none is a NULL
function pointer. -/
structure DevPmOps where
  prepare : Option Int := none
  complete : Option Int := none
  suspend : Option Int := none
  resume : Option Int := none
  freeze : Option Int := none
  thaw : Option Int := none
  poweroff : Option Int := none
  restore : Option Int := none
  suspend_late : Option Int := none
  resume_early : Option Int := none
  freeze_late : Option Int := none
  thaw_early : Option Int := none
  poweroff_late : Option Int := none
  restore_early : Option Int := none
  suspend_noirq : Option Int := none
  resume_noirq : Option Int := none
  freeze_noirq : Option Int := none
  thaw_noirq : Option Int := none
  poweroff_noirq : Option Int := none
  restore_noirq : Option Int := none
deriving Repr, DecidableEq

/-- Device class record: structured pm table plus the legacy
single-function class suspend and class resume hooks. -/
structure DevClass where
  pm : Option DevPmOps := none
  legacy_suspend : Option Int := none
  legacy_resume : Option Int := none
deriving Repr, DecidableEq

/-- Bus type record: structured pm table plus the legacy single-function
bus suspend and bus resume hooks. -/
structure DevBus where
  pm : Option DevPmOps := none
  legacy_suspend : Option Int := none
  legacy_resume : Option Int := none
deriving Repr, DecidableEq

/-- Device driver record (only the pm table and the legacy hooks
consulted by device_pm_check_callbacks are relevant here). -/
structure DevDriver where
  pm : Option DevPmOps := none
  legacy_suspend : Option Int := none
  legacy_resume : Option Int := none
deriving Repr, DecidableEq

/-- A device together with the dev_pm_info fields this file reads and
writes.  dtype_pm collapses the C condition dev->type && dev->type->pm
(a type without a pm table is never consulted).  pm_domain holds the ops
table of dev->pm_domain when present. -/
structure Device where
  name : String := ""
  pm_domain : Option DevPmOps := none
  dtype_pm : Option DevPmOps := none
  dclass : Option DevClass := none
  dbus : Option DevBus := none
  ddriver : Option DevDriver := none
  is_prepared : Bool := false
  is_suspended : Bool := false
  is_late_suspended : Bool := false
  is_noirq_suspended : Bool := false
  direct_complete : Bool := false
  syscore : Bool := false
  no_pm_callbacks : Bool := false
  wakeup_path : Bool := false
  may_wakeup : Bool := false
  runtime_suspended : Bool := false
  in_dpm_list : Bool := true
  async_suspend : Bool := false
  no_pm : Bool := false
deriving Repr, DecidableEq

/-- pm_op: select the structured callback for the main suspend/resume
phase from a dev_pm_ops table, per PM event. -/
def pm_op (ops : DevPmOps) (ev : PMEvent) : Option Int :=
  match ev with
  | .suspend => ops.suspend
  | .resume => ops.resume
  | .freeze | .quiesce => ops.freeze
  | .hibernate => ops.poweroff
  | .thaw | .recover => ops.thaw
  | .restore => ops.restore
  | .evOn => none

/-- pm_late_early_op: select the structured callback for the late
suspend and early resume phase, per PM event. -/
def pm_late_early_op (ops : DevPmOps) (ev : PMEvent) : Option Int :=
  match ev with
  | .suspend => ops.suspend_late
  | .resume => ops.resume_early
  | .freeze | .quiesce => ops.freeze_late
  | .hibernate => ops.poweroff_late
  | .thaw | .recover => ops.thaw_early
  | .restore => ops.restore_early
  | .evOn => none

/-- pm_noirq_op: select the structured callback for the noirq phase, per
PM event. -/
def pm_noirq_op (ops : DevPmOps) (ev : PMEvent) : Option Int :=
  match ev with
  | .suspend => ops.suspend_noirq
  | .resume => ops.resume_noirq
  | .freeze | .quiesce => ops.freeze_noirq
  | .hibernate => ops.poweroff_noirq
  | .thaw | .recover => ops.thaw_noirq
  | .restore => ops.restore_noirq
  | .evOn => none

/-- The prepare slot of a table, uniform with the per-event selectors. -/
def pm_prepare_op (ops : DevPmOps) (_ : PMEvent) : Option Int := ops.prepare

/-- The complete slot of a table, uniform with the per-event selectors. -/
def pm_complete_op (ops : DevPmOps) (_ : PMEvent) : Option Int := ops.complete

/-- resume_event: the resume-direction PM message paired with a given
sleep state. -/
def resume_event (ev : PMEvent) : PMEvent :=
  match ev with
  | .suspend => .resume
  | .freeze | .quiesce => .recover
  | .hibernate => .restore
  | _ => .evOn

/-- dpm_run_callback: a NULL callback is a no-op returning 0; otherwise
the return value of the callback. -/
def dpm_run_callback : Option Int → Int
  | none => 0
  | some e => e

/-- The driver-level fallback at the Run and Driver labels: consulted
only when dev->driver and dev->driver->pm exist. -/
def driver_pm_op (f : DevPmOps → PMEvent → Option Int) (dev : Device)
    (ev : PMEvent) : Option Int :=
  match dev.ddriver with
  | some dr =>
    match dr.pm with
    | some ops => f ops ev
    | none => none
  | none => none

/-- Apply the driver fallback exactly when the higher layers resolved no
callback, mirroring if (!callback && dev->driver && dev->driver->pm). -/
def resolve_with_fallback (f : DevPmOps → PMEvent → Option Int)
    (dev : Device) (ev : PMEvent) (cb : Option Int) : Option Int :=
  match cb with
  | some c => some c
  | none => driver_pm_op f dev ev

/-- The first layer owning a structured pm table, in the priority order
pm_domain, type, class, bus, used by the noirq, late or early, prepare
and complete chains (which have no legacy hooks). -/
def first_layer_pm (dev : Device) : Option DevPmOps :=
  match dev.pm_domain with
  | some ops => some ops
  | none =>
    match dev.dtype_pm with
    | some ops => some ops
    | none =>
      match dev.dclass.bind DevClass.pm with
      | some ops => some ops
      | none => dev.dbus.bind DevBus.pm

/-- Callback resolution shared by device_resume_noirq,
__device_suspend_noirq, device_resume_early, __device_suspend_late,
device_prepare and device_complete: the first layer owning a table
supplies the phase slot, then the driver fallback applies when that slot
is NULL. -/
def structured_callback (f : DevPmOps → PMEvent → Option Int)
    (dev : Device) (ev : PMEvent) : Option Int :=
  resolve_with_fallback f dev ev ((first_layer_pm dev).bind fun ops => f ops ev)

/-- The bus stage of device_resume: structured bus table (falling to the
driver fallback when its slot is NULL), else the legacy bus resume hook
(which jumps to End, skipping the driver fallback), else the driver
fallback. -/
def device_resume_bus_stage (dev : Device) (ev : PMEvent) : Option Int :=
  match dev.dbus with
  | some bus =>
    match bus.pm with
    | some ops => resolve_with_fallback pm_op dev ev (pm_op ops ev)
    | none =>
      match bus.legacy_resume with
      | some legacy => some legacy
      | none => resolve_with_fallback pm_op dev ev none
  | none => resolve_with_fallback pm_op dev ev none

/-- Callback resolution of device_resume, with the legacy class and bus
resume hooks in the positions the goto structure of the C gives them. -/
def device_resume_callback (dev : Device) (ev : PMEvent) : Option Int :=
  match dev.pm_domain with
  | some ops => resolve_with_fallback pm_op dev ev (pm_op ops ev)
  | none =>
    match dev.dtype_pm with
    | some ops => resolve_with_fallback pm_op dev ev (pm_op ops ev)
    | none =>
      match dev.dclass with
      | some cl =>
        match cl.pm with
        | some ops => resolve_with_fallback pm_op dev ev (pm_op ops ev)
        | none =>
          match cl.legacy_resume with
          | some legacy => some legacy
          | none => device_resume_bus_stage dev ev
      | none => device_resume_bus_stage dev ev

/-- The bus stage of __device_suspend, symmetric to the resume side: the
legacy bus suspend hook is invoked through legacy_suspend and jumps to
End, which here only means it is the resolved callback and the driver
fallback is skipped. -/
def device_suspend_bus_stage (dev : Device) (ev : PMEvent) : Option Int :=
  match dev.dbus with
  | some bus =>
    match bus.pm with
    | some ops => resolve_with_fallback pm_op dev ev (pm_op ops ev)
    | none =>
      match bus.legacy_suspend with
      | some legacy => some legacy
      | none => resolve_with_fallback pm_op dev ev none
  | none => resolve_with_fallback pm_op dev ev none

/-- Callback resolution of __device_suspend (value semantics: a legacy
hook invoked through legacy_suspend returns the same integer it would
through dpm_run_callback, only tracing differs). -/
def device_suspend_callback (dev : Device) (ev : PMEvent) : Option Int :=
  match dev.pm_domain with
  | some ops => resolve_with_fallback pm_op dev ev (pm_op ops ev)
  | none =>
    match dev.dtype_pm with
    | some ops => resolve_with_fallback pm_op dev ev (pm_op ops ev)
    | none =>
      match dev.dclass with
      | some cl =>
        match cl.pm with
        | some ops => resolve_with_fallback pm_op dev ev (pm_op ops ev)
        | none =>
          match cl.legacy_suspend with
          | some legacy => some legacy
          | none => device_suspend_bus_stage dev ev
      | none => device_suspend_bus_stage dev ev

/-- Spec-side resolver, written after the words of the specification:
the layers are an ordered list of optional callback providers tried in
fixed priority order.  A provider is absent (none) when its layer
supplies nothing, or present with the callback its layer yields for the
phase, which may itself be NULL when the structured table lacks that
slot.  The first present provider wins; when it yielded no callback for
the specific phase, and only then, the driver-level fallback is tried. -/
def firstSomeProvider : List (Option (Option Int)) → Option (Option Int)
  | [] => none
  | none :: rest => firstSomeProvider rest
  | some cb :: _ => some cb

/-- Spec-side resolution over an explicit provider list: the first
present provider wins and the driver fallback covers a missing phase
slot; when no layer provides anything, only the driver fallback is
left. -/
def spec_resolve (f : DevPmOps → PMEvent → Option Int)
    (providers : List (Option (Option Int))) (dev : Device) (ev : PMEvent) :
    Option Int :=
  match firstSomeProvider providers with
  | some cb => resolve_with_fallback f dev ev cb
  | none => driver_pm_op f dev ev

/-- Spec-side provider of a structured-only layer chain. -/
def spec_structured_resolve (f : DevPmOps → PMEvent → Option Int)
    (dev : Device) (ev : PMEvent) : Option Int :=
  spec_resolve f
    [ dev.pm_domain.map (fun ops => f ops ev),
      dev.dtype_pm.map (fun ops => f ops ev),
      (dev.dclass.bind DevClass.pm).map (fun ops => f ops ev),
      (dev.dbus.bind DevBus.pm).map (fun ops => f ops ev) ]
    dev ev

/-- Spec-side resume resolver: class and bus layers fall back to their
legacy single-function resume hooks where no structured table exists. -/
def spec_resume_resolve (dev : Device) (ev : PMEvent) : Option Int :=
  spec_resolve pm_op
    [ dev.pm_domain.map (fun ops => pm_op ops ev),
      dev.dtype_pm.map (fun ops => pm_op ops ev),
      (match dev.dclass with
       | none => none
       | some cl =>
         match cl.pm with
         | some ops => some (pm_op ops ev)
         | none => cl.legacy_resume.map some),
      (match dev.dbus with
       | none => none
       | some bus =>
         match bus.pm with
         | some ops => some (pm_op ops ev)
         | none => bus.legacy_resume.map some) ]
    dev ev

/-- Spec-side suspend resolver, with the legacy suspend hooks. -/
def spec_suspend_resolve (dev : Device) (ev : PMEvent) : Option Int :=
  spec_resolve pm_op
    [ dev.pm_domain.map (fun ops => pm_op ops ev),
      dev.dtype_pm.map (fun ops => pm_op ops ev),
      (match dev.dclass with
       | none => none
       | some cl =>
         match cl.pm with
         | some ops => some (pm_op ops ev)
         | none => cl.legacy_suspend.map some),
      (match dev.dbus with
       | none => none
       | some bus =>
         match bus.pm with
         | some ops => some (pm_op ops ev)
         | none => bus.legacy_suspend.map some) ]
    dev ev

/-- Error numbers of the kernel error codes used here. -/
def EBUSY : Int := 16

/-- EAGAIN error number. -/
def EAGAIN : Int := 11

/-- The failure-statistics record (struct suspend_stats).  The two-slot
ring buffers of failing device names and failing steps are modelled as
unbounded lists in recording order. -/
structure SuspendStats where
  failed_suspend : Nat := 0
  failed_suspend_late : Nat := 0
  failed_suspend_noirq : Nat := 0
  failed_resume : Nat := 0
  failed_resume_early : Nat := 0
  failed_resume_noirq : Nat := 0
  failed_prepare : Nat := 0
  failed_devs : List String := []
  failed_steps : List Nat := []
deriving Repr, DecidableEq

/-- suspend_stat_step values (enum from the PM headers). -/
def SUSPEND_FREEZE : Nat := 1

/-- SUSPEND_PREPARE step id. -/
def SUSPEND_PREPARE : Nat := 2

/-- SUSPEND_SUSPEND step id. -/
def SUSPEND_SUSPEND : Nat := 3

/-- SUSPEND_SUSPEND_LATE step id. -/
def SUSPEND_SUSPEND_LATE : Nat := 4

/-- SUSPEND_SUSPEND_NOIRQ step id. -/
def SUSPEND_SUSPEND_NOIRQ : Nat := 5

/-- SUSPEND_RESUME_NOIRQ step id. -/
def SUSPEND_RESUME_NOIRQ : Nat := 6

/-- SUSPEND_RESUME_EARLY step id. -/
def SUSPEND_RESUME_EARLY : Nat := 7

/-- SUSPEND_RESUME step id. -/
def SUSPEND_RESUME : Nat := 8

/-- dpm_save_failed_dev: record the name of a failing device. -/
def dpm_save_failed_dev (s : SuspendStats) (name : String) : SuspendStats :=
  {s with failed_devs := s.failed_devs ++ [name]}

/-- dpm_save_failed_step: record the failing step id. -/
def dpm_save_failed_step (s : SuspendStats) (step : Nat) : SuspendStats :=
  {s with failed_steps := s.failed_steps ++ [step]}

/-- Outcome of one per-device suspend-direction function.  asyncError is
the value of the global async_error after the call; completed records
that complete_all ran on the completion of the device (every exit path
of the three functions passes the Complete label). -/
structure SuspendDevResult where
  dev : Device
  error : Int
  asyncError : Int
  ranCallback : Bool
  completed : Bool
deriving Repr, DecidableEq

/-- __device_suspend_noirq, sequential semantics.  wakeupPending stands
for pm_wakeup_pending(); asyncError is the global flag on entry.  The
dependency wait dpm_wait_for_subordinate precedes the async_error check
and is a no-op here. -/
def __device_suspend_noirq (wakeupPending : Bool) (asyncError : Int)
    (dev : Device) (ev : PMEvent) : SuspendDevResult :=
  if asyncError ≠ 0 then
    ⟨dev, 0, asyncError, false, true⟩
  else if wakeupPending then
    ⟨dev, 0, -EBUSY, false, true⟩
  else if dev.syscore || dev.direct_complete then
    ⟨dev, 0, asyncError, false, true⟩
  else
    let callback := structured_callback pm_noirq_op dev ev
    let error := dpm_run_callback callback
    if error = 0 then
      ⟨{dev with is_noirq_suspended := true}, 0, asyncError, callback.isSome, true⟩
    else
      ⟨dev, error, error, callback.isSome, true⟩

/-- __device_suspend_late, sequential semantics (__pm_runtime_disable
has no modelled state). -/
def __device_suspend_late (wakeupPending : Bool) (asyncError : Int)
    (dev : Device) (ev : PMEvent) : SuspendDevResult :=
  if asyncError ≠ 0 then
    ⟨dev, 0, asyncError, false, true⟩
  else if wakeupPending then
    ⟨dev, 0, -EBUSY, false, true⟩
  else if dev.syscore || dev.direct_complete then
    ⟨dev, 0, asyncError, false, true⟩
  else
    let callback := structured_callback pm_late_early_op dev ev
    let error := dpm_run_callback callback
    if error = 0 then
      ⟨{dev with is_late_suspended := true}, 0, asyncError, callback.isSome, true⟩
    else
      ⟨dev, error, error, callback.isSome, true⟩

/-- __device_suspend, sequential semantics.  The propagation of
wakeup_path and direct_complete clearing to the parent and the suppliers
acts on other devices and is outside this per-device model; the
pm_runtime_status_suspended double check after pm_runtime_disable is
deterministic here, so one runtime_suspended field decides the
direct-complete skip. -/
def __device_suspend (wakeupPending : Bool) (asyncError : Int)
    (dev : Device) (ev : PMEvent) : SuspendDevResult :=
  if asyncError ≠ 0 then
    ⟨{dev with direct_complete := false}, 0, asyncError, false, true⟩
  else if wakeupPending then
    ⟨{dev with direct_complete := false}, 0, -EBUSY, false, true⟩
  else if dev.syscore then
    ⟨dev, 0, asyncError, false, true⟩
  else
    let dev1 := if dev.may_wakeup || dev.wakeup_path then
        {dev with direct_complete := false} else dev
    if dev1.direct_complete && dev1.runtime_suspended then
      ⟨dev1, 0, asyncError, false, true⟩
    else
      let dev2 := {dev1 with direct_complete := false}
      let callback := device_suspend_callback dev2 ev
      let error := dpm_run_callback callback
      if error = 0 then
        ⟨{dev2 with is_suspended := true}, 0, asyncError, callback.isSome, true⟩
      else
        ⟨dev2, error, error, callback.isSome, true⟩

/-- Outcome of one per-device resume-direction function. -/
structure ResumeDevResult where
  dev : Device
  error : Int
  ranCallback : Bool
deriving Repr, DecidableEq

/-- device_resume_noirq, sequential semantics.  The in_dpm_list test is
the device-still-registered check of dpm_wait_for_superior. -/
def device_resume_noirq (dev : Device) (ev : PMEvent) : ResumeDevResult :=
  if dev.syscore || dev.direct_complete then
    ⟨dev, 0, false⟩
  else if !dev.is_noirq_suspended then
    ⟨dev, 0, false⟩
  else if !dev.in_dpm_list then
    ⟨dev, 0, false⟩
  else
    let callback := structured_callback pm_noirq_op dev ev
    let error := dpm_run_callback callback
    ⟨{dev with is_noirq_suspended := false}, error, callback.isSome⟩

/-- device_resume_early, sequential semantics. -/
def device_resume_early (dev : Device) (ev : PMEvent) : ResumeDevResult :=
  if dev.syscore || dev.direct_complete then
    ⟨dev, 0, false⟩
  else if !dev.is_late_suspended then
    ⟨dev, 0, false⟩
  else if !dev.in_dpm_list then
    ⟨dev, 0, false⟩
  else
    let callback := structured_callback pm_late_early_op dev ev
    let error := dpm_run_callback callback
    ⟨{dev with is_late_suspended := false}, error, callback.isSome⟩

/-- device_resume, sequential semantics.  is_prepared is cleared after
the superior wait and before the is_suspended gate, as in the C. -/
def device_resume (dev : Device) (ev : PMEvent) : ResumeDevResult :=
  if dev.syscore then
    ⟨dev, 0, false⟩
  else if dev.direct_complete then
    ⟨dev, 0, false⟩
  else if !dev.in_dpm_list then
    ⟨dev, 0, false⟩
  else
    let dev1 := {dev with is_prepared := false}
    if !dev1.is_suspended then
      ⟨dev1, 0, false⟩
    else
      let callback := device_resume_callback dev1 ev
      let error := dpm_run_callback callback
      ⟨{dev1 with is_suspended := false}, error, callback.isSome⟩

/-- Outcome of device_complete: invoked records whether the resolved
complete callback was called (the C guards the call by if (callback)). -/
structure CompleteDevResult where
  dev : Device
  invoked : Bool
deriving Repr, DecidableEq

/-- device_complete: resolves the complete slot through the layer chain
and invokes it when non-NULL.  No per-device flag is consulted beyond
syscore; in particular is_prepared is not read here. -/
def device_complete (dev : Device) (ev : PMEvent) : CompleteDevResult :=
  if dev.syscore then
    ⟨dev, false⟩
  else
    let callback := structured_callback pm_complete_op dev ev
    ⟨dev, callback.isSome⟩

/-- device_prepare: a positive callback return is mapped to success and
feeds direct_complete (only for PM_EVENT_SUSPEND); a negative return is
propagated. -/
def device_prepare (dev : Device) (ev : PMEvent) : Device × Int :=
  if dev.syscore then
    (dev, 0)
  else
    let dev1 := {dev with wakeup_path := dev.may_wakeup}
    let ret : Int :=
      if dev1.no_pm_callbacks then 1
      else
        match structured_callback pm_prepare_op dev1 ev with
        | some r => r
        | none => 0
    if ret < 0 then
      (dev1, ret)
    else
      let dc := decide (0 < ret) && decide (ev = PMEvent.suspend)
      ({dev1 with direct_complete := dc}, 0)

/-- The five topology lists plus the failure statistics.  List heads are
the .next ends; tails are the .prev ends. -/
structure PMState where
  dpm_list : List Device := []
  dpm_prepared_list : List Device := []
  dpm_suspended_list : List Device := []
  dpm_late_early_list : List Device := []
  dpm_noirq_list : List Device := []
  stats : SuspendStats := {}
deriving Repr, DecidableEq

/-- Result of a resume-direction drain loop over one driving list:
moved carries the devices in the order they were appended to the target
list, processed the device names in the order the drain took them. -/
structure ResumeGoResult where
  moved : List Device
  stats : SuspendStats
  processed : List String
deriving Repr, DecidableEq

/-- The drain loop of dpm_noirq_resume_devices: takes the head (.next)
of dpm_noirq_list, moves it to the tail of dpm_late_early_list, runs
device_resume_noirq, records failures and always continues. -/
def dpm_noirq_resume_go (ev : PMEvent) :
    List Device → SuspendStats → ResumeGoResult
  | [], stats => ⟨[], stats, []⟩
  | d :: rest, stats =>
    let r := device_resume_noirq d ev
    let stats1 :=
      if r.error ≠ 0 then
        dpm_save_failed_dev
          (dpm_save_failed_step
            {stats with failed_resume_noirq := stats.failed_resume_noirq + 1}
            SUSPEND_RESUME_NOIRQ) d.name
      else stats
    let rec_ := dpm_noirq_resume_go ev rest stats1
    ⟨r.dev :: rec_.moved, rec_.stats, d.name :: rec_.processed⟩

/-- Result of a resume-direction phase executor: these executors return
no error to their caller (void in the C); processed is the drain order. -/
structure ResumePhaseResult where
  st : PMState
  processed : List String
deriving Repr, DecidableEq

/-- dpm_noirq_resume_devices: drain dpm_noirq_list into
dpm_late_early_list, every device getting an attempt. -/
def dpm_noirq_resume_devices (ev : PMEvent) (st : PMState) : ResumePhaseResult :=
  let g := dpm_noirq_resume_go ev st.dpm_noirq_list st.stats
  let st1 := {st with
    dpm_noirq_list := [],
    dpm_late_early_list := st.dpm_late_early_list ++ g.moved,
    stats := g.stats}
  ⟨st1, g.processed⟩

/-- dpm_resume_noirq = dpm_noirq_resume_devices then dpm_noirq_end
(interrupt and cpuidle state, outside this model). -/
def dpm_resume_noirq (ev : PMEvent) (st : PMState) : ResumePhaseResult :=
  dpm_noirq_resume_devices ev st

/-- The drain loop of dpm_resume_early: head of dpm_late_early_list to
tail of dpm_suspended_list. -/
def dpm_resume_early_go (ev : PMEvent) :
    List Device → SuspendStats → ResumeGoResult
  | [], stats => ⟨[], stats, []⟩
  | d :: rest, stats =>
    let r := device_resume_early d ev
    let stats1 :=
      if r.error ≠ 0 then
        dpm_save_failed_dev
          (dpm_save_failed_step
            {stats with failed_resume_early := stats.failed_resume_early + 1}
            SUSPEND_RESUME_EARLY) d.name
      else stats
    let rec_ := dpm_resume_early_go ev rest stats1
    ⟨r.dev :: rec_.moved, rec_.stats, d.name :: rec_.processed⟩

/-- dpm_resume_early: drain dpm_late_early_list into dpm_suspended_list. -/
def dpm_resume_early (ev : PMEvent) (st : PMState) : ResumePhaseResult :=
  let g := dpm_resume_early_go ev st.dpm_late_early_list st.stats
  let st1 := {st with
    dpm_late_early_list := [],
    dpm_suspended_list := st.dpm_suspended_list ++ g.moved,
    stats := g.stats}
  ⟨st1, g.processed⟩

/-- The drain loop of dpm_resume: head of dpm_suspended_list, run
device_resume, record failures, move to tail of dpm_prepared_list. -/
def dpm_resume_go (ev : PMEvent) :
    List Device → SuspendStats → ResumeGoResult
  | [], stats => ⟨[], stats, []⟩
  | d :: rest, stats =>
    let r := device_resume d ev
    let stats1 :=
      if r.error ≠ 0 then
        dpm_save_failed_dev
          (dpm_save_failed_step
            {stats with failed_resume := stats.failed_resume + 1}
            SUSPEND_RESUME) d.name
      else stats
    let rec_ := dpm_resume_go ev rest stats1
    ⟨r.dev :: rec_.moved, rec_.stats, d.name :: rec_.processed⟩

/-- dpm_resume: drain dpm_suspended_list into dpm_prepared_list (the
global async_error is reset to 0 on entry and not written again on the
resume path). -/
def dpm_resume (ev : PMEvent) (st : PMState) : ResumePhaseResult :=
  let g := dpm_resume_go ev st.dpm_suspended_list st.stats
  let st1 := {st with
    dpm_suspended_list := [],
    dpm_prepared_list := st.dpm_prepared_list ++ g.moved,
    stats := g.stats}
  ⟨st1, g.processed⟩

/-- Result of dpm_complete: invoked lists the devices whose complete
callback was actually called, processed the drain order. -/
structure CompleteResult where
  st : PMState
  invoked : List String
  processed : List String
deriving Repr, DecidableEq

/-- The drain loop of dpm_complete over the reversed prepared list (the
C takes the .prev element of dpm_prepared_list each round): clears
is_prepared, moves the device onto the front of a local list, then runs
device_complete. -/
def dpm_complete_go (ev : PMEvent) :
    List Device → List Device × List String × List String
  | [] => ([], [], [])
  | d :: rest =>
    let d1 := {d with is_prepared := false}
    let r := device_complete d1 ev
    let (lcl, invoked, processed) := dpm_complete_go ev rest
    (lcl ++ [r.dev],
     (if r.invoked then [d1.name] else []) ++ invoked,
     d1.name :: processed)

/-- dpm_complete: drain dpm_prepared_list from its tail, completing each
device, and splice the drained devices back onto the front of dpm_list. -/
def dpm_complete (ev : PMEvent) (st : PMState) : CompleteResult :=
  let g := dpm_complete_go ev st.dpm_prepared_list.reverse
  ⟨{st with dpm_prepared_list := [], dpm_list := g.1 ++ st.dpm_list},
   g.2.1, g.2.2⟩

/-- Result of a suspend-direction drain loop: remaining is what is left
on the driving list after a break (or nothing on a full drain), target
the accumulated destination list, error the loop-local error, asyncError
the global flag after the loop. -/
structure SuspendGoResult where
  remaining : List Device
  target : List Device
  error : Int
  asyncError : Int
  stats : SuspendStats
  processed : List String
deriving Repr, DecidableEq

/-- Result of a suspend-direction phase executor.  invokedPairedResume
records whether the executor called a resume-direction phase on
failure before returning. -/
structure SuspendPhaseResult where
  st : PMState
  error : Int
  processed : List String
  invokedPairedResume : Bool
deriving Repr, DecidableEq

/-- The drain loop of dpm_suspend over the reversed prepared list (the C
takes the .prev element of dpm_prepared_list each round).  On a device
error the loop breaks before the list_move, so the failing device stays
on the prepared list; on success the device is moved to the front of
dpm_suspended_list, and the loop then breaks if async_error is set. -/
def dpm_suspend_go (w : Bool) (ev : PMEvent) :
    List Device → List Device → Int → SuspendStats → SuspendGoResult
  | [], susp, aerr, stats => ⟨[], susp, 0, aerr, stats, []⟩
  | d :: revrest, susp, aerr, stats =>
    let r := __device_suspend w aerr d ev
    if r.error ≠ 0 then
      ⟨revrest.reverse ++ [r.dev], susp, r.error, r.asyncError,
       dpm_save_failed_dev stats d.name, [d.name]⟩
    else
      let susp1 := r.dev :: susp
      if r.asyncError ≠ 0 then
        ⟨revrest.reverse, susp1, 0, r.asyncError, stats, [d.name]⟩
      else
        let g := dpm_suspend_go w ev revrest susp1 r.asyncError stats
        ⟨g.remaining, g.target, g.error, g.asyncError, g.stats,
         d.name :: g.processed⟩

/-- dpm_suspend: drain dpm_prepared_list from its tail into
dpm_suspended_list; on failure record statistics and return the first
error.  No resume-direction phase is invoked here: the C function only
reports the error to its caller. -/
def dpm_suspend (w : Bool) (ev : PMEvent) (st : PMState) : SuspendPhaseResult :=
  let g := dpm_suspend_go w ev st.dpm_prepared_list.reverse
    st.dpm_suspended_list 0 st.stats
  let error := if g.error ≠ 0 then g.error else g.asyncError
  let stats1 :=
    if error ≠ 0 then
      dpm_save_failed_step
        {g.stats with failed_suspend := g.stats.failed_suspend + 1}
        SUSPEND_SUSPEND
    else g.stats
  let st1 := {st with
    dpm_prepared_list := g.remaining,
    dpm_suspended_list := g.target,
    stats := stats1}
  ⟨st1, error, g.processed, false⟩

/-- The drain loop of dpm_suspend_late over the reversed suspended list.
Unlike dpm_suspend, the list_move to dpm_late_early_list happens before
the error test, so a failing device is still moved. -/
def dpm_suspend_late_go (w : Bool) (ev : PMEvent) :
    List Device → List Device → Int → SuspendStats → SuspendGoResult
  | [], late, aerr, stats => ⟨[], late, 0, aerr, stats, []⟩
  | d :: revrest, late, aerr, stats =>
    let r := __device_suspend_late w aerr d ev
    let late1 := r.dev :: late
    if r.error ≠ 0 then
      ⟨revrest.reverse, late1, r.error, r.asyncError,
       dpm_save_failed_dev stats d.name, [d.name]⟩
    else if r.asyncError ≠ 0 then
      ⟨revrest.reverse, late1, 0, r.asyncError, stats, [d.name]⟩
    else
      let g := dpm_suspend_late_go w ev revrest late1 r.asyncError stats
      ⟨g.remaining, g.target, g.error, g.asyncError, g.stats,
       d.name :: g.processed⟩

/-- dpm_suspend_late: drain dpm_suspended_list from its tail into
dpm_late_early_list; on any failure record statistics, invoke
dpm_resume_early on the paired resume event, and return the error. -/
def dpm_suspend_late (w : Bool) (ev : PMEvent) (st : PMState) :
    SuspendPhaseResult :=
  let g := dpm_suspend_late_go w ev st.dpm_suspended_list.reverse
    st.dpm_late_early_list 0 st.stats
  let error := if g.error ≠ 0 then g.error else g.asyncError
  let st1 := {st with
    dpm_suspended_list := g.remaining,
    dpm_late_early_list := g.target,
    stats := g.stats}
  if error ≠ 0 then
    let stats1 := dpm_save_failed_step
      {st1.stats with failed_suspend_late := st1.stats.failed_suspend_late + 1}
      SUSPEND_SUSPEND_LATE
    let st2 := {st1 with stats := stats1}
    ⟨(dpm_resume_early (resume_event ev) st2).st, error, g.processed, true⟩
  else
    ⟨st1, error, g.processed, false⟩

/-- The drain loop of dpm_noirq_suspend_devices over the reversed
late-early list: like dpm_suspend, a failing device is not moved. -/
def dpm_suspend_noirq_go (w : Bool) (ev : PMEvent) :
    List Device → List Device → Int → SuspendStats → SuspendGoResult
  | [], noirq, aerr, stats => ⟨[], noirq, 0, aerr, stats, []⟩
  | d :: revrest, noirq, aerr, stats =>
    let r := __device_suspend_noirq w aerr d ev
    if r.error ≠ 0 then
      ⟨revrest.reverse ++ [r.dev], noirq, r.error, r.asyncError,
       dpm_save_failed_dev stats d.name, [d.name]⟩
    else
      let noirq1 := r.dev :: noirq
      if r.asyncError ≠ 0 then
        ⟨revrest.reverse, noirq1, 0, r.asyncError, stats, [d.name]⟩
      else
        let g := dpm_suspend_noirq_go w ev revrest noirq1 r.asyncError stats
        ⟨g.remaining, g.target, g.error, g.asyncError, g.stats,
         d.name :: g.processed⟩

/-- dpm_noirq_suspend_devices: drain dpm_late_early_list from its tail
into dpm_noirq_list; record statistics on failure and return the first
error.  The rollback on failure lives in dpm_suspend_noirq, not here. -/
def dpm_noirq_suspend_devices (w : Bool) (ev : PMEvent) (st : PMState) :
    SuspendPhaseResult :=
  let g := dpm_suspend_noirq_go w ev st.dpm_late_early_list.reverse
    st.dpm_noirq_list 0 st.stats
  let error := if g.error ≠ 0 then g.error else g.asyncError
  let stats1 :=
    if error ≠ 0 then
      dpm_save_failed_step
        {g.stats with failed_suspend_noirq := g.stats.failed_suspend_noirq + 1}
        SUSPEND_SUSPEND_NOIRQ
    else g.stats
  let st1 := {st with
    dpm_late_early_list := g.remaining,
    dpm_noirq_list := g.target,
    stats := stats1}
  ⟨st1, error, g.processed, false⟩

/-- dpm_suspend_noirq: dpm_noirq_begin, then the device pass, and when
it failed, dpm_resume_noirq on the paired resume event before the error
is returned. -/
def dpm_suspend_noirq (w : Bool) (ev : PMEvent) (st : PMState) :
    SuspendPhaseResult :=
  let r := dpm_noirq_suspend_devices w ev st
  if r.error ≠ 0 then
    ⟨(dpm_resume_noirq (resume_event ev) r.st).st, r.error, r.processed, true⟩
  else
    r

/-- The drain loop of dpm_prepare.  The C loop is unbounded and relies
on concurrent device removal to get past a device whose prepare keeps
returning -EAGAIN; fuel bounds the observation of the sequential model.
On -EAGAIN the error is reset to 0 and the loop continues with the
device still at the head of dpm_list, neither marked prepared nor moved;
any other error stops the phase and is returned. -/
def dpm_prepare_go (ev : PMEvent) :
    Nat → List Device → List Device → SuspendStats →
    Int × List Device × List Device × SuspendStats
  | 0, pending, prep, stats => (0, pending, prep, stats)
  | _ + 1, [], prep, stats => (0, [], prep, stats)
  | fuel + 1, d :: rest, prep, stats =>
    let pr := device_prepare d ev
    if pr.2 ≠ 0 then
      if pr.2 = -EAGAIN then
        dpm_prepare_go ev fuel (pr.1 :: rest) prep stats
      else
        (pr.2, pr.1 :: rest, prep, dpm_save_failed_dev stats pr.1.name)
    else
      dpm_prepare_go ev fuel rest (prep ++ [{pr.1 with is_prepared := true}])
        stats

/-- dpm_prepare: drain dpm_list from its head into dpm_prepared_list. -/
def dpm_prepare (fuel : Nat) (ev : PMEvent) (st : PMState) : PMState × Int :=
  let g := dpm_prepare_go ev fuel st.dpm_list st.dpm_prepared_list st.stats
  let st1 := {st with
    dpm_list := g.2.1,
    dpm_prepared_list := g.2.2.1,
    stats := g.2.2.2}
  (st1, g.1)

/-- The static device-name denylist table suspend_deny_list from drivers/base/power/main.c (826 entries, in source order). -/
def suspend_deny_list : List String := [
  "cpu0",
  "cpu1",
  "cpu2",
  "cpu3",
  "cpu4",
  "cpu5",
  "cpu6",
  "cpu7",
  "vtcon0",
  "slimbus",
  "ac000000.ramoops",
  "pmsg0",
  "soc",
  "soc:smp2p-mpss",
  "soc:smp2p-lpass",
  "soc:smp2p-slpi",
  "10f004.qcom,gdsc",
  "16b004.qcom,gdsc",
  "175004.qcom,gdsc",
  "17d034.qcom,gdsc",
  "17d038.qcom,gdsc",
  "c8ce024.syscon",
  "c8c1024.qcom,gdsc",
  "c8c1040.qcom,gdsc",
  "c8c1044.qcom,gdsc",
  "c8c34a0.qcom,gdsc",
  "c8c3664.qcom,gdsc",
  "c8c3674.qcom,gdsc",
  "c8c36d4.qcom,gdsc",
  "c8c2304.qcom,gdsc",
  "5066008.syscon",
  "5066004.qcom,gdsc",
  "5065130.syscon",
  "5066090.syscon",
  "soc:timer",
  "10ac000.restart",
  "778000.memory",
  "1f40000.syscon",
  "soc:hwlock",
  "1d00000.syscon",
  "17911000.mailbox",
  "1d0501c.mailbox",
  "soc:qcom,smem",
  "soc:qcom,smp2p_sleepstate",
  "soc:qcom,qsee_irq",
  "soc:qcom,qsee_irq_bridge",
  "soc:qcom,rpm-smd",
  "soc:rpm-glink",
  "soc:rpm-glink.rpmsg_ctrl.0.0",
  "soc:rpm-glink.rpm_requests.-1.-1",
  "soc:qcom,rpm-smd:qcom,rpmcc",
  "800f000.qcom,spmi",
  "soc:qcom,sps",
  "msm_sps",
  "spmi-0",
  "spmi0-00",
  "c1b0000.serial",
  "soc:qcom,glink",
  "800f000.qcom,spmi:qcom,pm8998@0:qcom,revid@100",
  "171c0000.slim",
  "800f000.qcom,spmi:qcom,pm8998@0:qcom,power-on@800",
  "17240000.slim",
  "17920000.timer",
  "soc:ddr-bw-opp-table",
  "soc:qcom,cpubw",
  "1008000.qcom,cpu-bwmon",
  "soc:qcom,mincpubw",
  "soc:qcom,memlat-cpu0",
  "soc:qcom,memlat-cpu4",
  "800f000.qcom,spmi:qcom,pm8998@0:pinctrl@c000",
  "soc:qcom,arm-memlat-mon-0",
  "800f000.qcom,spmi:qcom,pm8998@0:qcom,coincell@2800",
  "soc:qcom,arm-memlat-mon-4",
  "800f000.qcom,spmi:qcom,pm8998@0:qcom,pm8998_rtc",
  "800f000.qcom,spmi:qcom,pm8998@0:adc@3100",
  "soc:arm64-cpu-erp",
  "800f000.qcom,spmi:qcom,pm8998@0:clock-controller@5b00",
  "spmi0-01",
  "800f000.qcom,spmi:qcom,pm8998@1:regulator@2f00",
  "c8c0000.vote-clock-controller",
  "regulator.1",
  "800f000.qcom,spmi:qcom,pm8998@1:regulator@3800",
  "0.qcom,rmtfs_sharedmem",
  "soc:qcom,msm_gsi",
  "soc:qcom,rmnet-ipa",
  "regulator.2",
  "spmi0-02",
  "1e00000.qcom,ipa",
  "soc:qcom,ipa_fws@1e08000",
  "soc:qcom,chd_silver",
  "800f000.qcom,spmi:qcom,pmi8998@2:qcom,revid@100",
  "soc:qcom,chd_gold",
  "800f000.qcom,spmi:qcom,pmi8998@2:qcom,misc@900",
  "soc:qcom,ghd",
  "17900000.qcom,msm-gladiator-v2",
  "800f000.qcom,spmi:qcom,pmi8998@2:qcom,power-on@800",
  "soc:qcom,glink_pkt",
  "soc:qcom,msm-adsprpc-mem",
  "soc:qcom,msm_fastrpc",
  "soc:qcom,spcom",
  "soc:qcom,spss_utils",
  "1da7000.ufsphy",
  "1db0000.ufsice",
  "800f000.qcom,spmi:qcom,pmi8998@2:pinctrl@c000",
  "1da4000.ufshc",
  "c012000.qusb",
  "c010000.ssphy",
  "soc:usb_audio_qmi_dev",
  "800f000.qcom,spmi:qcom,pmi8998@2:qcom,qpnp-qnovo@1500",
  "soc:usb_nop_phy",
  "soc:qcom,rpm-smd:rpm-regulator-smpa1",
  "17300000.qcom,lpass",
  "soc:qcom,rpm-smd:rpm-regulator-smpa1:regulator-s1-level",
  "soc:qcom,memshare",
  "regulator.3",
  "soc:qcom,rpm-smd:rpm-regulator-smpa1:regulator-s1-floor-level",
  "4080000.qcom,mss",
  "regulator.4",
  "soc:qcom,rpm-smd:rpm-regulator-smpa1:regulator-s1-level-ao",
  "10aa000.tsens",
  "regulator.5",
  "10ad000.tsens",
  "soc:qcom,rpm-smd:rpm-regulator-smpa1:regulator-cx-cdev",
  "86600000.qseecom",
  "soc:qcom,rpm-smd:rpm-regulator-smpa2",
  "86600000.smcinvoke",
  "soc:qcom,rpm-smd:rpm-regulator-smpa2:regulator-s2",
  "146bf720.tz-log",
  "regulator.6",
  "soc:qcom,msm_hdcp",
  "soc:qcom,rpm-smd:rpm-regulator-smpa3",
  "1de0000.qcrypto",
  "soc:qcom,rpm-smd:rpm-regulator-smpa3:regulator-s3",
  "1de0000.qcedev",
  "regulator.7",
  "793000.qrng",
  "soc:qcom,rpm-smd:rpm-regulator-smpa4",
  "soc:qcom,bcl",
  "soc:qcom,rpm-smd:rpm-regulator-smpa4:regulator-s4",
  "regulator.8",
  "5c00000.qcom,ssc",
  "soc:qcom,rpm-smd:rpm-regulator-smpa5",
  "cce0000.qcom,venus",
  "soc:qcom,rpm-smd:rpm-regulator-smpa5:regulator-s5",
  "17817000.qcom,wdt",
  "800f000.qcom,spmi:qcom,pmi8998@2:qcom,qpnp-smb2",
  "regulator.9",
  "soc:qcom,rpm-smd:rpm-regulator-smpa7",
  "soc:qcom,rpm-smd:rpm-regulator-smpa7:regulator-s7",
  "800f000.qcom,spmi:qcom,pmi8998@2:bcl@4200",
  "800f000.qcom,spmi:qcom,pmi8998@2:rradc@4500",
  "800f000.qcom,spmi:qcom,pmi8998@2:gpio-leds",
  "spmi0-03",
  "800f000.qcom,spmi:qcom,pmi8998@3:qcom,pwms@b100",
  "800f000.qcom,spmi:qcom,pmi8998@3:pwm@b300",
  "800f000.qcom,spmi:qcom,pmi8998@3:pwm@b400",
  "800f000.qcom,spmi:qcom,pmi8998@3:pwm@b500",
  "800f000.qcom,spmi:qcom,pmi8998@3:qcom,leds@d000",
  "800f000.qcom,spmi:qcom,pmi8998@3:qcom,leds@d800",
  "800f000.qcom,spmi:qcom,pmi8998@3:qcom,leds@d300",
  "800f000.qcom,spmi:qcom,pmi8998@3:qcom,haptics@c000",
  "spmi0-04",
  "800f000.qcom,spmi:qcom,pm8005@4:qcom,revid@100",
  "800f000.qcom,spmi:qcom,pm8005@4:qcom,temp-alarm@2400",
  "800f000.qcom,spmi:qcom,pm8005@4:pinctrl@c000",
  "spmi0-05",
  "800f000.qcom,spmi:qcom,pm8005@5:regulator@1400",
  "regulator.10",
  "regulator.11",
  "soc:qcom,rpm-smd:rpm-regulator-smpa8",
  "soc:qcom,rpm-smd:rpm-regulator-smpa8:regulator-s8",
  "regulator.12",
  "soc:qcom,rpm-smd:rpm-regulator-smpa9",
  "soc:qcom,rpm-smd:rpm-regulator-smpa9:regulator-s9-level",
  "regulator.13",
  "soc:qcom,rpm-smd:rpm-regulator-smpa9:regulator-s9-floor-level",
  "regulator.14",
  "soc:qcom,rpm-smd:rpm-regulator-smpa9:regulator-s9-level-ao",
  "regulator.15",
  "1d0101c.qcom,spss",
  "soc:qcom,rpm-smd:rpm-regulator-smpa9:regulator-mx-cdev",
  "soc:qcom,msm-rtb",
  "soc:qcom,rpm-smd:rpm-regulator-ldoa1",
  "10a3000.qcom,mpm2-sleep-counter",
  "soc:qcom,rpm-smd:rpm-regulator-ldoa1:regulator-l1",
  "146bf000.qcom,msm-imem",
  "soc:cpu-pmu",
  "regulator.16",
  "soc:cpuss_dump",
  "soc:qcom,rpm-smd:rpm-regulator-ldoa2",
  "soc:qcom,msm-ssc-sensors",
  "soc:qcom,rpm-smd:rpm-regulator-ldoa2:regulator-l2",
  "10b3000.dcc",
  "regulator.17",
  "soc:qcom,rpm-smd:rpm-regulator-ldoa3",
  "soc:qcom,rpm-smd:rpm-regulator-ldoa3:regulator-l3",
  "regulator.18",
  "18800000.qcom,icnss",
  "soc:qcom,rpm-smd:rpm-regulator-ldoa4",
  "soc:qcom,rpm-smd:rpm-regulator-ldoa4:regulator-l4-level",
  "c1e7000.msm_tspp",
  "regulator.19",
  "soc:qcom,wil6210",
  "soc:qcom,rpm-smd:rpm-regulator-ldoa4:regulator-l4-floor-level",
  "soc:wcd9xxx-irq",
  "soc:qmi-tmd-devices",
  "regulator.20",
  "soc:qcom,rpm-smd:rpm-regulator-ldoa5",
  "soc:qcom,rpm-smd:rpm-regulator-ldoa5:regulator-l5",
  "regulator.21",
  "soc:qcom,rpm-smd:rpm-regulator-ldoa6",
  "soc:qcom,rpm-smd:rpm-regulator-ldoa6:regulator-l6",
  "1fcf004.regulator",
  "regulator.22",
  "regulator.23",
  "17812000.qcom,spm",
  "soc:qcom,rpm-smd:rpm-regulator-ldoa7",
  "soc:qcom,rpm-smd:rpm-regulator-ldoa7:regulator-l7",
  "regulator.24",
  "17912000.qcom,spm",
  "soc:qcom,rpm-smd:rpm-regulator-ldoa7:regulator-l7-pin-ctrl",
  "regulator.25",
  "soc:qcom,rpm-smd:rpm-regulator-ldoa8",
  "soc:qcom,lpm-levels",
  "soc:qcom,rpm-smd:rpm-regulator-ldoa8:regulator-l8",
  "200000.qcom,rpm-stats",
  "regulator.26",
  "200000.qcom,rpm-rail-stats",
  "soc:qcom,rpm-smd:rpm-regulator-ldoa9",
  "200000.qcom,rpm-log",
  "soc:qcom,rpm-smd:rpm-regulator-ldoa9:regulator-l9",
  "778150.qcom,rpm-master-stats",
  "regulator.27",
  "soc:qcom,rpm-smd:rpm-regulator-ldoa10",
  "soc:qcom,rpm-smd:rpm-regulator-ldoa10:regulator-l10",
  "regulator.28",
  "soc:qcom,rpm-smd:rpm-regulator-ldoa11",
  "soc:qcom,rpm-smd:rpm-regulator-ldoa11:regulator-l11",
  "regulator.29",
  "soc:qcom,rpm-smd:rpm-regulator-ldoa12",
  "soc:qcom,rpm-smd:rpm-regulator-ldoa12:regulator-l12",
  "regulator.30",
  "soc:qcom,rpm-smd:rpm-regulator-ldoa13",
  "soc:qcom,rpm-smd:rpm-regulator-ldoa13:regulator-l13",
  "regulator.31",
  "soc:qcom,rpm-smd:rpm-regulator-ldoa14",
  "soc:qcom,rpm-smd:rpm-regulator-ldoa14:regulator-l14",
  "regulator.32",
  "soc:qcom,rpm-smd:rpm-regulator-ldoa15",
  "soc:qcom,rpm-smd:rpm-regulator-ldoa15:regulator-l15",
  "regulator.33",
  "soc:qcom,rpm-smd:rpm-regulator-ldoa16",
  "soc:qcom,rpm-smd:rpm-regulator-ldoa16:regulator-l16",
  "soc:iommu_test_device",
  "soc:iommu_coherent_test_device",
  "regulator.34",
  "soc:qcom,ion",
  "soc:qcom,rpm-smd:rpm-regulator-ldoa17",
  "8c0000.qcom,msm-cam",
  "soc:qcom,rpm-smd:rpm-regulator-ldoa17:regulator-l17",
  "ca34000.qcom,csiphy",
  "regulator.35",
  "ca35000.qcom,csiphy",
  "soc:qcom,rpm-smd:rpm-regulator-ldoa17:regulator-l17-pin-ctrl",
  "ca36000.qcom,csiphy",
  "regulator.36",
  "soc:qcom,rpm-smd:rpm-regulator-ldoa18",
  "ca30000.qcom,csid",
  "soc:qcom,rpm-smd:rpm-regulator-ldoa18:regulator-l18",
  "ca30400.qcom,csid",
  "regulator.37",
  "ca30800.qcom,csid",
  "soc:qcom,rpm-smd:rpm-regulator-ldoa19",
  "soc:qcom,rpm-smd:rpm-regulator-ldoa19:regulator-l19",
  "ca30c00.qcom,csid",
  "soc:qcom,cam_smmu",
  "regulator.38",
  "soc:qcom,rpm-smd:rpm-regulator-ldoa20",
  "caa4000.qcom,fd",
  "soc:qcom,rpm-smd:rpm-regulator-ldoa20:regulator-l20",
  "ca04000.qcom,cpp",
  "regulator.39",
  "ca31000.qcom,ispif",
  "soc:qcom,rpm-smd:rpm-regulator-ldoa21",
  "soc:qcom,rpm-smd:rpm-regulator-ldoa21:regulator-l21",
  "ca10000.qcom,vfe0",
  "regulator.40",
  "ca14000.qcom,vfe1",
  "soc:qcom,rpm-smd:rpm-regulator-ldoa22",
  "soc:qcom,vfe",
  "soc:qcom,rpm-smd:rpm-regulator-ldoa22:regulator-l22",
  "ca0c000.qcom,cci",
  "regulator.41",
  "ca1c000.qcom,jpeg",
  "soc:qcom,rpm-smd:rpm-regulator-ldoa23",
  "soc:qcom,rpm-smd:rpm-regulator-ldoa23:regulator-l23",
  "caa0000.qcom,jpeg",
  "regulator.42",
  "cc00000.qcom,vidc",
  "soc:qcom,rpm-smd:rpm-regulator-ldoa24",
  "c880000.qcom,vmem",
  "soc:qcom,rpm-smd:rpm-regulator-ldoa24:regulator-l24",
  "6048000.tmc",
  "regulator.43",
  "6046000.replicator",
  "soc:qcom,rpm-smd:rpm-regulator-ldoa25",
  "6047000.tmc",
  "soc:qcom,rpm-smd:rpm-regulator-ldoa25:regulator-l25",
  "6045000.funnel",
  "6041000.funnel",
  "regulator.44",
  "6042000.funnel",
  "soc:qcom,rpm-smd:rpm-regulator-ldoa25:regulator-l25-pin-ctrl",
  "7b70000.funnel",
  "regulator.45",
  "7b60000.funnel",
  "soc:qcom,rpm-smd:rpm-regulator-ldoa26",
  "6002000.stm",
  "soc:qcom,rpm-smd:rpm-regulator-ldoa26:regulator-l26",
  "7840000.etm",
  "7940000.etm",
  "regulator.46",
  "7a40000.etm",
  "soc:qcom,rpm-smd:rpm-regulator-ldoa27",
  "7b40000.etm",
  "soc:qcom,rpm-smd:rpm-regulator-ldoa27:regulator-l27-level",
  "7c40000.etm",
  "7d40000.etm",
  "regulator.47",
  "7e40000.etm",
  "soc:qcom,rpm-smd:rpm-regulator-ldoa27:regulator-l27-floor-level",
  "7f40000.etm",
  "6010000.cti",
  "6011000.cti",
  "regulator.48",
  "6012000.cti",
  "soc:qcom,rpm-smd:rpm-regulator-ldoa28",
  "6013000.cti",
  "soc:qcom,rpm-smd:rpm-regulator-ldoa28:regulator-l28",
  "6014000.cti",
  "6015000.cti",
  "regulator.49",
  "6016000.cti",
  "soc:qcom,rpm-smd:rpm-regulator-vsa1",
  "6017000.cti",
  "soc:qcom,rpm-smd:rpm-regulator-vsa1:regulator-lvs1",
  "6018000.cti",
  "regulator.50",
  "6019000.cti",
  "soc:qcom,rpm-smd:rpm-regulator-vsa2",
  "601a000.cti",
  "soc:qcom,rpm-smd:rpm-regulator-vsa2:regulator-lvs2",
  "601b000.cti",
  "regulator.51",
  "601c000.cti",
  "soc:qcom,rpm-smd:rpm-regulator-bobb",
  "601d000.cti",
  "soc:qcom,rpm-smd:rpm-regulator-bobb:regulator-bob",
  "601e000.cti",
  "601f000.cti",
  "regulator.52",
  "7820000.cti",
  "soc:qcom,rpm-smd:rpm-regulator-bobb:regulator-bob-pin1",
  "7920000.cti",
  "regulator.53",
  "7a20000.cti",
  "soc:qcom,rpm-smd:rpm-regulator-bobb:regulator-bob-pin2",
  "7b20000.cti",
  "7c20000.cti",
  "regulator.54",
  "soc:qcom,rpm-smd:rpm-regulator-bobb:regulator-bob-pin3",
  "7d20000.cti",
  "7e20000.cti",
  "regulator.55",
  "7f20000.cti",
  "soc:rpm-glink.glink_ssr.-1.-1",
  "7b80000.cti",
  "7bc1000.cti",
  "7b91000.cti",
  "6005000.funnel",
  "6004000.tpda",
  "7038000.tpdm",
  "7054000.tpdm",
  "704c000.tpdm",
  "71d0000.tpdm",
  "7050000.tpdm",
  "7bc2000.tpda",
  "7bc0000.tpdm",
  "7043000.tpda",
  "7042000.tpdm",
  "7191000.tpda",
  "7190000.tpdm",
  "7b92000.tpda",
  "7b90000.tpdm",
  "7083000.funnel",
  "7082000.tpda",
  "7080000.tpdm",
  "158000.hwevent",
  "6001000.csr",
  "soc:modem_etm0",
  "soc:audio_etm0",
  "soc:rpm_etm0",
  "7225000.funnel",
  "soc:dummy-tpdm-wcss",
  "1620000.ad-hoc-bus",
  "soc:devfreq_spdm_cpu",
  "soc:devfreq_spdm_gov",
  "soc:qcom,kgsl-hyp",
  "soc:qcom,kgsl-busmon",
  "soc:ddr-bw-opp-table-gpu",
  "soc:qcom,gpubw",
  "5000000.qcom,kgsl-3d0",
  "5040000.qcom,kgsl-iommu",
  "3400000.pinctrl",
  "gpiochip0",
  "gpiochip0",
  "soc:qcom,msm-pcm",
  "soc:qcom,msm-pcm-routing",
  "soc:qcom,msm-compr-dsp",
  "soc:qcom,msm-pcm-low-latency",
  "soc:qcom,msm-ultra-low-latency",
  "soc:qcom,msm-pcm-dsp-noirq",
  "soc:qcom,msm-transcode-loopback",
  "soc:qcom,msm-compress-dsp",
  "soc:qcom,msm-stub-codec",
  "soc:qcom,msm-dai-fe",
  "soc:qcom,msm-pcm-afe",
  "soc:qcom,msm-dai-q6-hdmi",
  "soc:qcom,msm-dai-q6-dp",
  "soc:qcom,msm-pcm-loopback",
  "soc:qcom,msm-pcm-loopback-low-latency",
  "soc:qcom,msm-pcm-dtmf",
  "soc:qcom,msm-dai-mi2s",
  "soc:qcom,msm-dai-cdc-dma",
  "soc:qcom,msm-lsm-client",
  "soc:qcom,msm-dai-q6",
  "soc:qcom,msm-pcm-hostless",
  "soc:qcom,msm-audio-apr",
  "soc:qcom,msm-pri-auxpcm",
  "soc:qcom,msm-sec-auxpcm",
  "soc:qcom,msm-tert-auxpcm",
  "soc:qcom,msm-quat-auxpcm",
  "soc:qcom,msm-quin-auxpcm",
  "soc:qcom,msm-hdmi-dba-codec-rx",
  "soc:qcom,msm-adsp-loader",
  "soc:qcom,msm-dai-tdm-pri-rx",
  "soc:qcom,msm-dai-tdm-pri-tx",
  "soc:qcom,msm-dai-tdm-sec-rx",
  "soc:qcom,msm-dai-tdm-sec-tx",
  "soc:qcom,msm-dai-tdm-tert-rx",
  "soc:qcom,msm-dai-tdm-tert-tx",
  "soc:qcom,msm-dai-tdm-quat-rx",
  "soc:qcom,msm-dai-tdm-quat-tx",
  "soc:qcom,msm-dai-tdm-quin-rx",
  "soc:qcom,msm-dai-tdm-quin-tx",
  "soc:qcom,msm-dai-q6-spdif-pri-rx",
  "soc:qcom,msm-dai-q6-spdif-pri-tx",
  "soc:qcom,msm-dai-q6-spdif-sec-rx",
  "soc:qcom,msm-dai-q6-spdif-sec-tx",
  "soc:qcom,msm-dai-q6-afe-loopback-tx",
  "c900000.qcom,mdss_mdp",
  "soc:qcom,mdss_dsi@0",
  "soc:qcom,mdss_wb_panel",
  "soc:qcom,msm_ext_disp",
  "c900000.qcom,mdss_rotator",
  "c994a00.qcom,mdss_dsi_pll",
  "c996a00.qcom,mdss_dsi_pll",
  "c144000.qcom,sps-dma",
  "c184000.qcom,sps-dma",
  "c175000.spi",
  "c1b8000.spi",
  "c171000.uart",
  "soc:msm_cdc_pinctrl@64",
  "170f700c.qcom,avtimer",
  "soc:qcom,msm-cpe-lsm",
  "soc:qcom,msm-cpe-lsm@3",
  "soc:qcom,wcd-dsp-mgr",
  "soc:qcom,wcd-dsp-glink",
  "soc:msm_cdc_pinctrl@67",
  "soc:msm_cdc_pinctrl@68",
  "soc:audio_ext_clk",
  "c900000.qcom,sde_kms",
  "c994000.qcom,sde_dsi_ctrl0",
  "c996000.qcom,sde_dsi_ctrl1",
  "c994400.qcom,mdss_dsi_phy0",
  "c996400.qcom,mdss_dsi_phy1",
  "c9a0000.qcom,hdmi_tx_8998",
  "soc:qcom,wb-display@0",
  "soc:qcom,hdmi-display",
  "c9a0000.qcom,hdmi-cec",
  "soc:gpio_keys",
  "soc:virtual_therm@0",
  "soc:tri_state_key",
  "soc:fingerprint_detect",
  "soc:fpc_fpc1020",
  "soc:qcom,camera-flash@0",
  "psci",
  "vendor",
  "vendor:bt_wcn3990",
  "writeback",
  "pwmchip0",
  "pwmchip1",
  "pwmchip2",
  "regulator.56",
  "regulator.57",
  "regulator.58",
  "regulator.59",
  "regulator.60",
  "regulator.61",
  "regulator.62",
  "regulator.63",
  "regulator.64",
  "regulator.65",
  "regulator.66",
  "regulator.67",
  "regulator.68",
  "regulator.69",
  "vga_arbiter",
  "input0",
  "thermal_zone0",
  "thermal_zone1",
  "thermal_zone2",
  "thermal_zone3",
  "thermal_zone4",
  "thermal_zone5",
  "thermal_zone6",
  "thermal_zone7",
  "thermal_zone8",
  "thermal_zone9",
  "thermal_zone10",
  "thermal_zone11",
  "thermal_zone12",
  "thermal_zone13",
  "thermal_zone14",
  "thermal_zone15",
  "thermal_zone16",
  "thermal_zone17",
  "thermal_zone18",
  "thermal_zone19",
  "thermal_zone20",
  "thermal_zone21",
  "thermal_zone22",
  "thermal_zone23",
  "thermal_zone24",
  "thermal_zone25",
  "thermal_zone26",
  "thermal_zone27",
  "thermal_zone28",
  "thermal_zone29",
  "thermal_zone30",
  "thermal_zone31",
  "thermal_zone32",
  "thermal_zone33",
  "thermal_zone34",
  "thermal_zone35",
  "thermal_zone36",
  "thermal_zone37",
  "thermal_zone38",
  "thermal_zone39",
  "thermal_zone40",
  "thermal_zone41",
  "thermal_zone42",
  "thermal_zone43",
  "thermal_zone44",
  "thermal_zone45",
  "thermal_zone46",
  "thermal_zone47",
  "thermal_zone48",
  "thermal_zone49",
  "thermal_zone50",
  "thermal_zone51",
  "thermal_zone52",
  "thermal_zone53",
  "thermal_zone54",
  "thermal_zone55",
  "thermal_zone56",
  "thermal_zone57",
  "thermal_zone58",
  "thermal_zone59",
  "thermal_zone60",
  "thermal_zone61",
  "thermal_zone62",
  "thermal_zone63",
  "thermal_zone64",
  "thermal_zone65",
  "edac",
  "mc",
  "soc:qcom,ion:qcom,ion-heap@25",
  "soc:qcom,ion:qcom,ion-heap@22",
  "soc:qcom,ion:qcom,ion-heap@26",
  "soc:qcom,ion:qcom,ion-heap@27",
  "soc:qcom,ion:qcom,ion-heap@19",
  "soc:qcom,ion:qcom,ion-heap@13",
  "soc:qcom,ion:qcom,ion-heap@10",
  "soc:qcom,ion:qcom,ion-heap@9",
  "ion",
  "extcon0",
  "extcon1",
  "soc:qcom,msm_ext_disp:qcom,msm-ext-disp-audio-codec-rx",
  "lo",
  "regulatory.0",
  "rfkill",
  "100000.qcom,gcc",
  "c8c0000.qcom,mmsscc",
  "5065000.qcom,early_gpucc",
  "179c8000.cprh-ctrl",
  "regulator.70",
  "179c4000.cprh-ctrl",
  "regulator.71",
  "5061000.cpr4-ctrl",
  "regulator.72",
  "c8ce020.qcom,gdsc",
  "regulator.73",
  "c179000.i2c",
  "i2c-5",
  "5-0020",
  "c17a000.i2c",
  "i2c-6",
  "6-0028",
  "c1b5000.i2c",
  "i2c-7",
  "7-0008",
  "7-0055",
  "7-0026",
  "c1b7000.i2c",
  "i2c-9",
  "9-0036",
  "5065000.qcom,gpucc",
  "179c0000.qcom,cpu-clock-8998",
  "179c0000.qcom,cpu-clock-8998:qcom,limits-dcvs@179ce800",
  "179c0000.qcom,cpu-clock-8998:qcom,limits-dcvs@179cc800",
  "5066094.qcom,gdsc",
  "regulator.74",
  "soc:qcom,msm-cpufreq",
  "fab-a1noc",
  "fab-a2noc",
  "fab-bimc",
  "fab-cnoc",
  "fab-cr_virt",
  "fab-gnoc",
  "fab-mnoc",
  "fab-snoc",
  "fab-mnoc-ahb",
  "mas-pcie-0",
  "mas-usb3",
  "mas-ufs",
  "mas-blsp-2",
  "mas-cnoc-a2noc",
  "mas-ipa",
  "mas-sdcc-2",
  "mas-sdcc-4",
  "mas-tsif",
  "mas-blsp-1",
  "mas-cr-virt-a2noc",
  "mas-gnoc-bimc",
  "mas-oxili",
  "mas-mnoc-bimc",
  "mas-snoc-bimc",
  "mas-snoc-cnoc",
  "mas-qdss-dap",
  "mas-crypto-c0",
  "mas-apps-proc",
  "mas-cnoc-mnoc-mmss-cfg",
  "mas-cnoc-mnoc-cfg",
  "mas-cpp",
  "mas-jpeg",
  "mas-mdp-p0",
  "mas-mdp-p1",
  "mas-rotator",
  "mas-venus",
  "mas-vfe",
  "mas-venus-vmem",
  "mas-hmss",
  "mas-qdss-bam",
  "mas-snoc-cfg",
  "mas-bimc-snoc-0",
  "mas-bimc-snoc-1",
  "mas-a1noc-snoc",
  "mas-a2noc-snoc",
  "mas-qdss-etr",
  "slv-a1noc-snoc",
  "slv-a2noc-snoc",
  "slv-ebi",
  "slv-hmss-l3",
  "slv-bimc-snoc-0",
  "slv-bimc-snoc-1",
  "slv-cnoc-a2noc",
  "slv-ssc-cfg",
  "slv-mpm",
  "slv-pmic-arb",
  "slv-tlmm-north",
  "slv-pimem-cfg",
  "slv-imem-cfg",
  "slv-message-ram",
  "slv-skl",
  "slv-bimc-cfg",
  "slv-prng",
  "slv-a2noc-cfg",
  "slv-ipa",
  "slv-tcsr",
  "slv-snoc-cfg",
  "slv-clk-ctl",
  "slv-glm",
  "slv-spdm",
  "slv-gpuss-cfg",
  "slv-cnoc-mnoc-cfg",
  "slv-qm-cfg",
  "slv-mss-cfg",
  "slv-ufs-cfg",
  "slv-tlmm-west",
  "slv-a1noc-cfg",
  "slv-ahb2phy",
  "slv-blsp-2",
  "slv-pdm",
  "slv-usb3-0",
  "slv-a1noc-smmu-cfg",
  "slv-blsp-1",
  "slv-sdcc-2",
  "slv-sdcc-4",
  "slv-tsif",
  "slv-qdss-cfg",
  "slv-tlmm-east",
  "slv-cnoc-mnoc-mmss-cfg",
  "slv-srvc-cnoc",
  "slv-cr-virt-a2noc",
  "slv-gnoc-bimc",
  "slv-camera-cfg",
  "slv-camera-throttle-cfg",
  "slv-misc-cfg",
  "slv-venus-throttle-cfg",
  "slv-venus-cfg",
  "slv-vmem-cfg",
  "slv-mmss-clk-xpu-cfg",
  "slv-mmss-clk-cfg",
  "slv-display-cfg",
  "slv-display-throttle-cfg",
  "slv-smmu-cfg",
  "slv-mnoc-bimc",
  "slv-vmem",
  "slv-srvc-mnoc",
  "slv-hmss",
  "slv-lpass",
  "slv-wlan",
  "slv-snoc-bimc",
  "slv-snoc-cnoc",
  "slv-imem",
  "slv-pimem",
  "slv-qdss-stm",
  "slv-pcie-0",
  "slv-srvc-snoc",
  "null",
  "zero",
  "full",
  "random",
  "urandom",
  "kmsg",
  "tty",
  "console",
  "tty0",
  "vcs",
  "vcsa",
  "vcs1",
  "vcsa1",
  "tty1",
  "tty2",
  "tty3",
  "tty4",
  "tty5",
  "tty6",
  "tty7",
  "tty8",
  "tty9",
  "tty10",
  "tty11",
  "tty12",
  "tty13",
  "tty14",
  "tty15",
  "tty16",
  "tty17",
  "tty18",
  "tty19",
  "tty20",
  "tty21",
  "tty22",
  "tty23",
  "tty24",
  "tty25",
  "tty26",
  "tty27",
  "tty28",
  "tty29",
  "tty30",
  "tty31",
  "tty32",
  "tty33",
  "tty34",
  "tty35",
  "tty36",
  "tty37",
  "tty38",
  "tty39",
  "tty40",
  "tty41",
  "tty42",
  "tty43",
  "tty44",
  "tty45",
  "tty46",
  "tty47",
  "tty48",
  "tty49",
  "tty50",
  "tty51",
  "tty52",
  "tty53",
  "tty54",
  "tty55",
  "tty56",
  "tty57",
  "tty58",
  "tty59",
  "tty60",
  "tty61",
  "tty62",
  "tty63"
  ]

/-- is_device_in_suspend_denied_list: linear scan with strcmp equality. -/
def is_device_in_suspend_denied_list (name : String) : Bool :=
  suspend_deny_list.any (fun entry => name == entry)

/-- pm_ops_is_empty: a NULL table, or one with none of the eight
structured slots this file dispatches on. -/
def pm_ops_is_empty : Option DevPmOps → Bool
  | none => true
  | some ops =>
    ops.prepare.isNone && ops.suspend.isNone && ops.suspend_late.isNone &&
    ops.suspend_noirq.isNone && ops.resume_noirq.isNone &&
    ops.resume_early.isNone && ops.resume.isNone && ops.complete.isNone

/-- device_pm_check_callbacks: recompute the no_pm_callbacks flag from
every layer, structured tables and legacy hooks alike. -/
def device_pm_check_callbacks (dev : Device) : Device :=
  let flag :=
    (match dev.dbus with
     | none => true
     | some b => pm_ops_is_empty b.pm && b.legacy_suspend.isNone &&
         b.legacy_resume.isNone) &&
    (match dev.dclass with
     | none => true
     | some c => pm_ops_is_empty c.pm && c.legacy_suspend.isNone &&
         c.legacy_resume.isNone) &&
    pm_ops_is_empty dev.dtype_pm &&
    (match dev.pm_domain with
     | none => true
     | some pd => pm_ops_is_empty (some pd)) &&
    (match dev.ddriver with
     | none => true
     | some dr => pm_ops_is_empty dr.pm && dr.legacy_suspend.isNone &&
         dr.legacy_resume.isNone)
  {dev with no_pm_callbacks := flag}

/-- device_pm_add: skip devices not requiring PM and denylisted devices;
otherwise refresh no_pm_callbacks and append to the tail of dpm_list. -/
def device_pm_add (st : List Device) (dev : Device) : List Device :=
  if dev.no_pm then st
  else if is_device_in_suspend_denied_list dev.name then st
  else
    let dev1 := device_pm_check_callbacks dev
    st ++ [{dev1 with in_dpm_list := true}]

/-- list_move_tail of one named entry to the end of dpm_list (device
names are assumed unique, as device registration guarantees). -/
def move_entry_to_tail (st : List Device) (name : String) : List Device :=
  st.filter (fun d => !(d.name == name)) ++ st.filter (fun d => d.name == name)

/-- device_pm_move_last: denylisted devices are not relocated. -/
def device_pm_move_last (st : List Device) (name : String) : List Device :=
  if is_device_in_suspend_denied_list name then st
  else move_entry_to_tail st name

/-- Reinsert a removed entry directly before the named device (assumed
present, as the C contract requires). -/
def insert_before_named (bname : String) (ins : List Device) :
    List Device → List Device
  | [] => ins
  | d :: rest =>
    if d.name == bname then ins ++ d :: rest
    else d :: insert_before_named bname ins rest

/-- Reinsert a removed entry directly after the named device. -/
def insert_after_named (bname : String) (ins : List Device) :
    List Device → List Device
  | [] => ins
  | d :: rest =>
    if d.name == bname then d :: (ins ++ rest)
    else d :: insert_after_named bname ins rest

/-- device_pm_move_before: delete deva from dpm_list and reinsert before
devb.  No denylist check exists on this path. -/
def device_pm_move_before (st : List Device) (aname bname : String) :
    List Device :=
  insert_before_named bname (st.filter (fun d => d.name == aname))
    (st.filter (fun d => !(d.name == aname)))

/-- device_pm_move_after: delete deva from dpm_list and reinsert after
devb.  No denylist check exists on this path. -/
def device_pm_move_after (st : List Device) (aname bname : String) :
    List Device :=
  insert_after_named bname (st.filter (fun d => d.name == aname))
    (st.filter (fun d => !(d.name == aname)))

/-- A bus pm table whose slots all succeed. -/
def opsOk : DevPmOps :=
  {prepare := some 0, complete := some 0, suspend := some 0,
   resume := some 0, suspend_late := some 0, resume_early := some 0,
   suspend_noirq := some 0, resume_noirq := some 0}

/-- A bus pm table whose suspend slot fails with -5. -/
def opsFailSuspend : DevPmOps := {suspend := some (-5)}

/-- A bus pm table whose suspend_late slot fails with -4. -/
def opsFailLate : DevPmOps := {suspend_late := some (-4)}

/-- A bus pm table whose suspend_noirq slot fails with -6. -/
def opsFailNoirq : DevPmOps := {suspend_noirq := some (-6)}

/-- A bus pm table whose resume_noirq slot fails with -7. -/
def opsFailResumeNoirq : DevPmOps := {resume_noirq := some (-7)}

/-- A bus pm table whose resume_early slot fails with -8. -/
def opsFailResumeEarly : DevPmOps := {resume_early := some (-8)}

/-- A bus pm table whose resume slot fails with -9. -/
def opsFailResume : DevPmOps := {resume := some (-9)}

/-- A plain device whose bus callbacks all succeed. -/
def devOk : Device := {name := "a", dbus := some {pm := some opsOk}}

/-- A second plain successful device, for ordering examples. -/
def devOkB : Device := {name := "b", dbus := some {pm := some opsOk}}

/-- A device whose suspend callback fails. -/
def devFailSuspend : Device :=
  {name := "fail-suspend", dbus := some {pm := some opsFailSuspend}}

/-- A device whose late-suspend callback fails. -/
def devFailLate : Device :=
  {name := "fail-late", dbus := some {pm := some opsFailLate}}

/-- A device whose noirq-suspend callback fails. -/
def devFailNoirq : Device :=
  {name := "fail-noirq", dbus := some {pm := some opsFailNoirq}}

/-- A noirq-suspended device whose noirq-resume callback fails. -/
def devFailResumeNoirq : Device :=
  {name := "fail-rnoirq", is_noirq_suspended := true,
   dbus := some {pm := some opsFailResumeNoirq}}

/-- A late-suspended device whose early-resume callback fails. -/
def devFailResumeEarly : Device :=
  {name := "fail-rearly", is_late_suspended := true,
   dbus := some {pm := some opsFailResumeEarly}}

/-- A suspended device whose resume callback fails. -/
def devFailResume : Device :=
  {name := "fail-resume", is_suspended := true,
   dbus := some {pm := some opsFailResume}}

/-- An unprepared device owning a complete callback. -/
def devC7 : Device :=
  {name := "c7", is_prepared := false,
   dbus := some {pm := some {complete := some 0}}}

/-- A device carrying a denylisted name. -/
def devCpu0 : Device := {name := "cpu0", dbus := some {pm := some opsOk}}

/-- A device whose prepare callback keeps returning -EAGAIN. -/
def devPrepareEagain : Device :=
  {name := "prep-eagain", dbus := some {pm := some {prepare := some (-11)}}}

/-- A device whose prepare callback fails with -22. -/
def devPrepareFail : Device :=
  {name := "prep-fail", dbus := some {pm := some {prepare := some (-22)}}}

/-- A device whose prepare callback returns the positive value 2. -/
def devPreparePositive : Device :=
  {name := "prep-pos", dbus := some {pm := some {prepare := some 2}}}

/-- Prepared list holding a failing device before a successful one: the
tail device a succeeds first, then fail-suspend fails. -/
def stC1cex : PMState := {dpm_prepared_list := [devFailSuspend, devOk]}

/-- Late-early list holding one device that fails noirq suspend. -/
def stC1noirq : PMState := {dpm_late_early_list := [devFailNoirq]}

/-- Suspended list holding one device that fails late suspend. -/
def stC1late : PMState := {dpm_suspended_list := [devFailLate]}

/-- Two-device prepared list in discovery order a then b. -/
def stC8 : PMState := {dpm_prepared_list := [devOk, devOkB]}

/-- The structured layer chains of the code equal the spec-side ordered
provider resolution. -/
theorem structured_eq_spec (f : DevPmOps → PMEvent → Option Int)
    (dev : Device) (ev : PMEvent) :
    structured_callback f dev ev = spec_structured_resolve f dev ev := by
  obtain ⟨nm, pd, tp, cls, bus, drv, p1, p2, p3, p4, p5, p6, p7, p8, p9,
    p10, p11, p12, p13⟩ := dev
  rcases pd with _ | pdops <;>
  rcases tp with _ | tpops <;>
  rcases cls with _ | ⟨_ | clops, clls, cllr⟩ <;>
  rcases bus with _ | ⟨_ | busops, busls, buslr⟩ <;>
  simp [structured_callback, spec_structured_resolve, spec_resolve,
    first_layer_pm, resolve_with_fallback, firstSomeProvider, Option.bind]

/-- The resume chain of the code, with legacy class and bus hooks,
equals the spec-side ordered provider resolution. -/
theorem resume_resolve_eq_spec (dev : Device) (ev : PMEvent) :
    device_resume_callback dev ev = spec_resume_resolve dev ev := by
  obtain ⟨nm, pd, tp, cls, bus, drv, p1, p2, p3, p4, p5, p6, p7, p8, p9,
    p10, p11, p12, p13⟩ := dev
  rcases pd with _ | pdops <;>
  rcases tp with _ | tpops <;>
  rcases cls with _ | ⟨_ | clops, clls, _ | cllr⟩ <;>
  rcases bus with _ | ⟨_ | busops, busls, _ | buslr⟩ <;>
  simp [device_resume_callback, device_resume_bus_stage, spec_resume_resolve,
    spec_resolve, resolve_with_fallback, firstSomeProvider, Option.map]

/-- The suspend chain of the code, with legacy class and bus hooks,
equals the spec-side ordered provider resolution. -/
theorem suspend_resolve_eq_spec (dev : Device) (ev : PMEvent) :
    device_suspend_callback dev ev = spec_suspend_resolve dev ev := by
  obtain ⟨nm, pd, tp, cls, bus, drv, p1, p2, p3, p4, p5, p6, p7, p8, p9,
    p10, p11, p12, p13⟩ := dev
  rcases pd with _ | pdops <;>
  rcases tp with _ | tpops <;>
  rcases cls with _ | ⟨_ | clops, _ | clls, cllr⟩ <;>
  rcases bus with _ | ⟨_ | busops, _ | busls, buslr⟩ <;>
  simp [device_suspend_callback, device_suspend_bus_stage, spec_suspend_resolve,
    spec_resolve, resolve_with_fallback, firstSomeProvider, Option.map]

/-- Claim C4: for every device and phase the executed callback follows
the strict layer priority power domain, then type, then class, then
bus, with the legacy class and bus single-function hooks standing in
where a layer has no structured table, the driver-level fallback tried
exactly when no higher layer yielded a callback for the phase, and a
NULL resolution run as a no-op returning 0 by dpm_run_callback. -/
theorem C4_callback_resolution_priority (dev : Device) (ev : PMEvent) :
    device_resume_callback dev ev = spec_resume_resolve dev ev ∧
    device_suspend_callback dev ev = spec_suspend_resolve dev ev ∧
    structured_callback pm_noirq_op dev ev =
      spec_structured_resolve pm_noirq_op dev ev ∧
    structured_callback pm_late_early_op dev ev =
      spec_structured_resolve pm_late_early_op dev ev ∧
    structured_callback pm_prepare_op dev ev =
      spec_structured_resolve pm_prepare_op dev ev ∧
    structured_callback pm_complete_op dev ev =
      spec_structured_resolve pm_complete_op dev ev ∧
    dpm_run_callback none = 0 :=
  ⟨resume_resolve_eq_spec dev ev, suspend_resolve_eq_spec dev ev,
   structured_eq_spec pm_noirq_op dev ev,
   structured_eq_spec pm_late_early_op dev ev,
   structured_eq_spec pm_prepare_op dev ev,
   structured_eq_spec pm_complete_op dev ev, rfl⟩

/-- Claim C5: the per-device phase flags gate phase progression: each
suspend-direction per-device function sets its flag only when the
callback returned 0, and each resume-direction per-device function
skips its callback entirely when the corresponding flag is false. -/
theorem C5_phase_flags_gate_progression (w : Bool) (aerr : Int)
    (dev : Device) (ev : PMEvent) :
    (dev.is_noirq_suspended = false →
      (__device_suspend_noirq w aerr dev ev).dev.is_noirq_suspended = true →
      (__device_suspend_noirq w aerr dev ev).error = 0) ∧
    (dev.is_late_suspended = false →
      (__device_suspend_late w aerr dev ev).dev.is_late_suspended = true →
      (__device_suspend_late w aerr dev ev).error = 0) ∧
    (dev.is_suspended = false →
      (__device_suspend w aerr dev ev).dev.is_suspended = true →
      (__device_suspend w aerr dev ev).error = 0) ∧
    (dev.is_noirq_suspended = false →
      (device_resume_noirq dev ev).ranCallback = false ∧
      (device_resume_noirq dev ev).error = 0) ∧
    (dev.is_late_suspended = false →
      (device_resume_early dev ev).ranCallback = false ∧
      (device_resume_early dev ev).error = 0) ∧
    (dev.is_suspended = false →
      (device_resume dev ev).ranCallback = false ∧
      (device_resume dev ev).error = 0) := by
  refine ⟨?_, ?_, ?_, ?_, ?_, ?_⟩
  · intro hf
    simp only [__device_suspend_noirq]
    split_ifs <;> simp_all
  · intro hf
    simp only [__device_suspend_late]
    split_ifs <;> simp_all
  · intro hf
    simp only [__device_suspend]
    split_ifs <;> simp_all
  · intro hf
    simp only [device_resume_noirq]
    split_ifs <;> simp_all
  · intro hf
    simp only [device_resume_early]
    split_ifs <;> simp_all
  · intro hf
    simp only [device_resume]
    split_ifs <;> simp_all

/-- Claim C9: every resume-direction per-device function clears its
phase flag unconditionally once it reaches the callback, whatever the
callback returned, so a device whose resume callback failed is still
treated as resumed. -/
theorem C9_resume_flags_cleared_unconditionally (dev : Device) (ev : PMEvent) :
    (dev.syscore = false → dev.direct_complete = false →
      dev.in_dpm_list = true → dev.is_noirq_suspended = true →
      (device_resume_noirq dev ev).dev.is_noirq_suspended = false) ∧
    (dev.syscore = false → dev.direct_complete = false →
      dev.in_dpm_list = true → dev.is_late_suspended = true →
      (device_resume_early dev ev).dev.is_late_suspended = false) ∧
    (dev.syscore = false → dev.direct_complete = false →
      dev.in_dpm_list = true → dev.is_suspended = true →
      (device_resume dev ev).dev.is_suspended = false) := by
  refine ⟨?_, ?_, ?_⟩ <;> intro h1 h2 h3 h4
  · simp [device_resume_noirq, h1, h2, h3, h4]
  · simp [device_resume_early, h1, h2, h3, h4]
  · simp [device_resume, h1, h2, h3, h4]

/-- Claim C2: once the transition-wide first-error flag is non-zero, a
per-device suspend function completes the completion of the device
without invoking its callback and reports no error of its own, and the
synchronous drain loops stop taking new devices once the flag is set. -/
theorem C2_first_error_gates_new_suspend_work (w : Bool) (aerr : Int)
    (dev d : Device) (ev : PMEvent) (revrest susp : List Device)
    (stats : SuspendStats) :
    (aerr ≠ 0 →
      ((__device_suspend w aerr dev ev).ranCallback = false ∧
       (__device_suspend w aerr dev ev).completed = true ∧
       (__device_suspend w aerr dev ev).error = 0) ∧
      ((__device_suspend_late w aerr dev ev).ranCallback = false ∧
       (__device_suspend_late w aerr dev ev).completed = true ∧
       (__device_suspend_late w aerr dev ev).error = 0) ∧
      ((__device_suspend_noirq w aerr dev ev).ranCallback = false ∧
       (__device_suspend_noirq w aerr dev ev).completed = true ∧
       (__device_suspend_noirq w aerr dev ev).error = 0)) ∧
    ((__device_suspend w 0 d ev).error = 0 →
      (__device_suspend w 0 d ev).asyncError ≠ 0 →
      (dpm_suspend_go w ev (d :: revrest) susp 0 stats).processed = [d.name] ∧
      (dpm_suspend_go w ev (d :: revrest) susp 0 stats).remaining =
        revrest.reverse) ∧
    ((__device_suspend_late w 0 d ev).error = 0 →
      (__device_suspend_late w 0 d ev).asyncError ≠ 0 →
      (dpm_suspend_late_go w ev (d :: revrest) susp 0 stats).processed =
        [d.name] ∧
      (dpm_suspend_late_go w ev (d :: revrest) susp 0 stats).remaining =
        revrest.reverse) ∧
    ((__device_suspend_noirq w 0 d ev).error = 0 →
      (__device_suspend_noirq w 0 d ev).asyncError ≠ 0 →
      (dpm_suspend_noirq_go w ev (d :: revrest) susp 0 stats).processed =
        [d.name] ∧
      (dpm_suspend_noirq_go w ev (d :: revrest) susp 0 stats).remaining =
        revrest.reverse) := by
  refine ⟨?_, ?_, ?_, ?_⟩
  · intro h
    refine ⟨?_, ?_, ?_⟩ <;>
      simp [__device_suspend, __device_suspend_late, __device_suspend_noirq, h]
  · intro h1 h2
    simp [dpm_suspend_go, h1, h2]
  · intro h1 h2
    simp [dpm_suspend_late_go, h1, h2]
  · intro h1 h2
    simp [dpm_suspend_noirq_go, h1, h2]

/-- The noirq-resume drain visits every device on the list in order,
moves each one, and counts each failing device in the statistics. -/
theorem dpm_noirq_resume_go_spec (ev : PMEvent) (l : List Device)
    (stats : SuspendStats) :
    (dpm_noirq_resume_go ev l stats).moved =
      l.map (fun d => (device_resume_noirq d ev).dev) ∧
    (dpm_noirq_resume_go ev l stats).processed = l.map (fun d => d.name) ∧
    (dpm_noirq_resume_go ev l stats).stats.failed_resume_noirq =
      stats.failed_resume_noirq +
        l.countP (fun d => decide ((device_resume_noirq d ev).error ≠ 0)) := by
  induction l generalizing stats with
  | nil => simp [dpm_noirq_resume_go]
  | cons d rest ih =>
    by_cases h : (device_resume_noirq d ev).error ≠ 0 <;>
      simp [dpm_noirq_resume_go, h, dpm_save_failed_dev, dpm_save_failed_step,
        ih, List.countP_cons] <;> omega

/-- The early-resume drain visits every device on the list in order. -/
theorem dpm_resume_early_go_spec (ev : PMEvent) (l : List Device)
    (stats : SuspendStats) :
    (dpm_resume_early_go ev l stats).moved =
      l.map (fun d => (device_resume_early d ev).dev) ∧
    (dpm_resume_early_go ev l stats).processed = l.map (fun d => d.name) ∧
    (dpm_resume_early_go ev l stats).stats.failed_resume_early =
      stats.failed_resume_early +
        l.countP (fun d => decide ((device_resume_early d ev).error ≠ 0)) := by
  induction l generalizing stats with
  | nil => simp [dpm_resume_early_go]
  | cons d rest ih =>
    by_cases h : (device_resume_early d ev).error ≠ 0 <;>
      simp [dpm_resume_early_go, h, dpm_save_failed_dev, dpm_save_failed_step,
        ih, List.countP_cons] <;> omega

/-- The resume drain visits every device on the list in order. -/
theorem dpm_resume_go_spec (ev : PMEvent) (l : List Device)
    (stats : SuspendStats) :
    (dpm_resume_go ev l stats).moved =
      l.map (fun d => (device_resume d ev).dev) ∧
    (dpm_resume_go ev l stats).processed = l.map (fun d => d.name) ∧
    (dpm_resume_go ev l stats).stats.failed_resume =
      stats.failed_resume +
        l.countP (fun d => decide ((device_resume d ev).error ≠ 0)) := by
  induction l generalizing stats with
  | nil => simp [dpm_resume_go]
  | cons d rest ih =>
    by_cases h : (device_resume d ev).error ≠ 0 <;>
      simp [dpm_resume_go, h, dpm_save_failed_dev, dpm_save_failed_step,
        ih, List.countP_cons] <;> omega

/-- The complete drain visits every device of its input, clearing
is_prepared and rebuilding the local list in reversed processing
order. -/
theorem dpm_complete_go_spec (ev : PMEvent) (l : List Device) :
    (dpm_complete_go ev l).1 =
      l.reverse.map
        (fun d => (device_complete {d with is_prepared := false} ev).dev) ∧
    (dpm_complete_go ev l).2.2 = l.map (fun d => d.name) := by
  induction l with
  | nil => simp [dpm_complete_go]
  | cons d rest ih => simp [dpm_complete_go, ih]

/-- Claim C3: every resume-direction phase executor processes every
device on its driving list even when callbacks fail: each failure only
bumps the failure statistics, the drain continues, and the executor
returns no error (its result type carries none). -/
theorem C3_resume_phases_process_all_devices (ev : PMEvent) (st : PMState) :
    ((dpm_noirq_resume_devices ev st).processed =
       st.dpm_noirq_list.map (fun d => d.name) ∧
     (dpm_noirq_resume_devices ev st).st.dpm_noirq_list = [] ∧
     (dpm_noirq_resume_devices ev st).st.dpm_late_early_list =
       st.dpm_late_early_list ++
         st.dpm_noirq_list.map (fun d => (device_resume_noirq d ev).dev) ∧
     (dpm_noirq_resume_devices ev st).st.stats.failed_resume_noirq =
       st.stats.failed_resume_noirq +
         st.dpm_noirq_list.countP
           (fun d => decide ((device_resume_noirq d ev).error ≠ 0))) ∧
    ((dpm_resume_early ev st).processed =
       st.dpm_late_early_list.map (fun d => d.name) ∧
     (dpm_resume_early ev st).st.dpm_late_early_list = [] ∧
     (dpm_resume_early ev st).st.dpm_suspended_list =
       st.dpm_suspended_list ++
         st.dpm_late_early_list.map (fun d => (device_resume_early d ev).dev) ∧
     (dpm_resume_early ev st).st.stats.failed_resume_early =
       st.stats.failed_resume_early +
         st.dpm_late_early_list.countP
           (fun d => decide ((device_resume_early d ev).error ≠ 0))) ∧
    ((dpm_resume ev st).processed =
       st.dpm_suspended_list.map (fun d => d.name) ∧
     (dpm_resume ev st).st.dpm_suspended_list = [] ∧
     (dpm_resume ev st).st.dpm_prepared_list =
       st.dpm_prepared_list ++
         st.dpm_suspended_list.map (fun d => (device_resume d ev).dev) ∧
     (dpm_resume ev st).st.stats.failed_resume =
       st.stats.failed_resume +
         st.dpm_suspended_list.countP
           (fun d => decide ((device_resume d ev).error ≠ 0))) ∧
    ((dpm_complete ev st).processed =
       st.dpm_prepared_list.reverse.map (fun d => d.name) ∧
     (dpm_complete ev st).st.dpm_prepared_list = [] ∧
     (dpm_complete ev st).st.dpm_list =
       st.dpm_prepared_list.map
         (fun d => (device_complete {d with is_prepared := false} ev).dev) ++
         st.dpm_list) := by
  obtain ⟨hm1, hp1, hs1⟩ := dpm_noirq_resume_go_spec ev st.dpm_noirq_list st.stats
  obtain ⟨hm2, hp2, hs2⟩ :=
    dpm_resume_early_go_spec ev st.dpm_late_early_list st.stats
  obtain ⟨hm3, hp3, hs3⟩ := dpm_resume_go_spec ev st.dpm_suspended_list st.stats
  obtain ⟨hc1, hc2⟩ := dpm_complete_go_spec ev st.dpm_prepared_list.reverse
  refine ⟨⟨?_, rfl, ?_, ?_⟩, ⟨?_, rfl, ?_, ?_⟩, ⟨?_, rfl, ?_, ?_⟩,
    ⟨?_, rfl, ?_⟩⟩ <;>
    simp [dpm_noirq_resume_devices, dpm_resume_early, dpm_resume, dpm_complete,
      hm1, hp1, hs1, hm2, hp2, hs2, hm3, hp3, hs3, hc1, hc2]

/-- The first device the dpm_suspend drain processes is the head of the
reversed driving list it is given. -/
theorem dpm_suspend_go_head (w : Bool) (ev : PMEvent) (lr susp : List Device)
    (aerr : Int) (stats : SuspendStats) :
    (dpm_suspend_go w ev lr susp aerr stats).processed.head? =
      lr.head?.map (fun d => d.name) := by
  cases lr with
  | nil => simp [dpm_suspend_go]
  | cons d rest =>
    simp only [dpm_suspend_go]
    split_ifs <;> simp

/-- The first device the dpm_suspend_late drain processes is the head
of the reversed driving list it is given. -/
theorem dpm_suspend_late_go_head (w : Bool) (ev : PMEvent)
    (lr late : List Device) (aerr : Int) (stats : SuspendStats) :
    (dpm_suspend_late_go w ev lr late aerr stats).processed.head? =
      lr.head?.map (fun d => d.name) := by
  cases lr with
  | nil => simp [dpm_suspend_late_go]
  | cons d rest =>
    simp only [dpm_suspend_late_go]
    split_ifs <;> simp

/-- The first device the noirq-suspend drain processes is the head of
the reversed driving list it is given. -/
theorem dpm_suspend_noirq_go_head (w : Bool) (ev : PMEvent)
    (lr noirq : List Device) (aerr : Int) (stats : SuspendStats) :
    (dpm_suspend_noirq_go w ev lr noirq aerr stats).processed.head? =
      lr.head?.map (fun d => d.name) := by
  cases lr with
  | nil => simp [dpm_suspend_noirq_go]
  | cons d rest =>
    simp only [dpm_suspend_noirq_go]
    split_ifs <;> simp

/-- Corrected C8: each synchronous drain takes its first device from the
.prev (tail) end for the three suspend-direction executors and for
dpm_complete, and from the .next (head) end for the three
resume-direction executors. -/
theorem C8_drain_take_order (w : Bool) (ev : PMEvent) (st : PMState) :
    (dpm_suspend w ev st).processed.head? =
      st.dpm_prepared_list.getLast?.map (fun d => d.name) ∧
    (dpm_suspend_late w ev st).processed.head? =
      st.dpm_suspended_list.getLast?.map (fun d => d.name) ∧
    (dpm_noirq_suspend_devices w ev st).processed.head? =
      st.dpm_late_early_list.getLast?.map (fun d => d.name) ∧
    (dpm_resume ev st).processed.head? =
      st.dpm_suspended_list.head?.map (fun d => d.name) ∧
    (dpm_resume_early ev st).processed.head? =
      st.dpm_late_early_list.head?.map (fun d => d.name) ∧
    (dpm_noirq_resume_devices ev st).processed.head? =
      st.dpm_noirq_list.head?.map (fun d => d.name) ∧
    (dpm_complete ev st).processed.head? =
      st.dpm_prepared_list.getLast?.map (fun d => d.name) := by
  obtain ⟨-, hp1, -⟩ := dpm_noirq_resume_go_spec ev st.dpm_noirq_list st.stats
  obtain ⟨-, hp2, -⟩ :=
    dpm_resume_early_go_spec ev st.dpm_late_early_list st.stats
  obtain ⟨-, hp3, -⟩ := dpm_resume_go_spec ev st.dpm_suspended_list st.stats
  obtain ⟨-, hc2⟩ := dpm_complete_go_spec ev st.dpm_prepared_list.reverse
  refine ⟨?_, ?_, ?_, ?_, ?_, ?_, ?_⟩
  · simp [dpm_suspend, dpm_suspend_go_head, List.head?_reverse]
  · simp only [dpm_suspend_late]
    split_ifs <;>
      simp [dpm_suspend_late_go_head, List.head?_reverse]
  · simp [dpm_noirq_suspend_devices, dpm_suspend_noirq_go_head,
      List.head?_reverse]
  · simp [dpm_resume, hp3, List.head?_map]
  · simp [dpm_resume_early, hp2, List.head?_map]
  · simp [dpm_noirq_resume_devices, hp1, List.head?_map]
  · simp [dpm_complete, hc2, List.head?_map, List.head?_reverse]

/-- Counterexample to C8 as stated: with the prepared list holding a
then b in discovery order, dpm_suspend processes b (the tail, .prev)
first, not the head a the claim names for the suspend drain. -/
theorem C8_suspend_drains_tail_counterexample :
    (dpm_suspend false PMEvent.suspend stC8).processed = ["b", "a"] ∧
    stC8.dpm_prepared_list.map (fun d => d.name) = ["a", "b"] ∧
    ¬ ((dpm_suspend false PMEvent.suspend stC8).processed.head? =
        stC8.dpm_prepared_list.head?.map (fun d => d.name)) := by decide

/-- Corrected C1: dpm_suspend_noirq and dpm_suspend_late invoke the
paired resume-direction phase on any failure and return the original
error, but dpm_suspend reports the error without invoking dpm_resume
(the rollback for the suspend phase belongs to its caller). -/
theorem C1_suspend_phase_rollback (w : Bool) (ev : PMEvent) (st : PMState) :
    ((dpm_noirq_suspend_devices w ev st).error ≠ 0 →
      (dpm_suspend_noirq w ev st).invokedPairedResume = true ∧
      (dpm_suspend_noirq w ev st).error =
        (dpm_noirq_suspend_devices w ev st).error ∧
      (dpm_suspend_noirq w ev st).st =
        (dpm_resume_noirq (resume_event ev)
          (dpm_noirq_suspend_devices w ev st).st).st ∧
      (dpm_suspend_noirq w ev st).st.dpm_noirq_list = []) ∧
    ((dpm_noirq_suspend_devices w ev st).error = 0 →
      dpm_suspend_noirq w ev st = dpm_noirq_suspend_devices w ev st) ∧
    ((dpm_suspend_late w ev st).error ≠ 0 →
      (dpm_suspend_late w ev st).invokedPairedResume = true ∧
      (dpm_suspend_late w ev st).st.dpm_late_early_list = []) ∧
    (dpm_suspend w ev st).invokedPairedResume = false := by
  refine ⟨?_, ?_, ?_, rfl⟩
  · intro h
    simp only [dpm_suspend_noirq]
    split_ifs
    exact ⟨rfl, rfl, rfl, rfl⟩
  · intro h
    simp only [dpm_suspend_noirq]
    split_ifs with hc
    · exact absurd h hc
    · rfl
  · intro h
    simp only [dpm_suspend_late] at h ⊢
    split_ifs at h ⊢ with hc1 hc2
    · exact ⟨rfl, rfl⟩
    · exact ⟨rfl, rfl⟩
    · exact absurd (by simpa using h) hc2

/-- Counterexample to C1 as stated: dpm_suspend fails with the original
error yet does not invoke dpm_resume, and the already-suspended device
a is left with is_suspended still true on the suspended list. -/
theorem C1_dpm_suspend_no_rollback_counterexample :
    (dpm_suspend false PMEvent.suspend stC1cex).error = -5 ∧
    (dpm_suspend false PMEvent.suspend stC1cex).invokedPairedResume = false ∧
    (dpm_suspend false PMEvent.suspend stC1cex).st.dpm_suspended_list.map
      (fun d => d.is_suspended) = [true] := by decide

/-- Witness for the corrected C1 at concrete failing states. -/
theorem C1_suspend_phase_rollback_witness :
    (dpm_noirq_suspend_devices false PMEvent.suspend stC1noirq).error = -6 ∧
    (dpm_suspend_noirq false PMEvent.suspend stC1noirq).invokedPairedResume =
      true ∧
    (dpm_suspend_noirq false PMEvent.suspend stC1noirq).st.dpm_noirq_list =
      [] ∧
    (dpm_suspend_late false PMEvent.suspend stC1late).error = -4 ∧
    (dpm_suspend_late false PMEvent.suspend stC1late).invokedPairedResume =
      true ∧
    (dpm_suspend_late false PMEvent.suspend stC1late).st.dpm_late_early_list =
      [] := by
  have h := C1_suspend_phase_rollback false PMEvent.suspend stC1noirq
  have h2 := C1_suspend_phase_rollback false PMEvent.suspend stC1late
  exact ⟨by decide, (h.1 (by decide)).1, (h.1 (by decide)).2.2.2, by decide,
    (h2.2.2.1 (by decide)).1, (h2.2.2.1 (by decide)).2⟩

/-- Counterexample to C7 as stated: device_complete still invokes the
resolved complete callback for a device whose is_prepared flag is
false. -/
theorem C7_complete_runs_despite_unprepared :
    devC7.is_prepared = false ∧
    (device_complete devC7 PMEvent.suspend).invoked = true := by decide

/-- Corrected C7: device_complete never consults is_prepared — it runs
the resolved callback whenever the device is not a syscore device; the
no-reinvocation guarantee is the list discipline of dpm_complete, which
empties the prepared list, so a second dpm_complete invokes nothing. -/
theorem C7_complete_gated_by_list_not_flag (dev : Device) (ev ev2 : PMEvent)
    (st : PMState) :
    (device_complete dev ev).invoked =
      (!dev.syscore && (structured_callback pm_complete_op dev ev).isSome) ∧
    (dpm_complete ev st).st.dpm_prepared_list = [] ∧
    (dpm_complete ev2 (dpm_complete ev st).st).invoked = [] := by
  refine ⟨?_, rfl, ?_⟩
  · by_cases h : dev.syscore <;> simp [device_complete, h]
  · simp [dpm_complete, dpm_complete_go]

/-- Claim C6: a denylisted device name is never added to dpm_list by
device_pm_add and never relocated by device_pm_move_last, while
device_pm_move_before and device_pm_move_after perform their unguarded
relocation with no denylist consultation. -/
theorem C6_denylist_gates_add_and_move_last (st : List Device) (dev : Device)
    (b : String) :
    is_device_in_suspend_denied_list dev.name = true →
    device_pm_add st dev = st ∧
    device_pm_move_last st dev.name = st ∧
    device_pm_move_before st dev.name b =
      insert_before_named b (st.filter fun d => d.name == dev.name)
        (st.filter fun d => !(d.name == dev.name)) ∧
    device_pm_move_after st dev.name b =
      insert_after_named b (st.filter fun d => d.name == dev.name)
        (st.filter fun d => !(d.name == dev.name)) := by
  intro h
  refine ⟨?_, ?_, rfl, rfl⟩
  · simp [device_pm_add, h]
  · simp [device_pm_move_last, h]

/-- Witness for C6 at the denylisted name cpu0. -/
theorem C6_denylist_witness :
    is_device_in_suspend_denied_list devCpu0.name = true ∧
    device_pm_add [devOk] devCpu0 = [devOk] ∧
    device_pm_move_last [devOk, devCpu0] devCpu0.name = [devOk, devCpu0] := by
  have h := C6_denylist_gates_add_and_move_last [devOk] devCpu0 "b"
  have h2 := C6_denylist_gates_add_and_move_last [devOk, devCpu0] devCpu0 "b"
  exact ⟨by decide, (h (by decide)).1, (h2 (by decide)).2.1⟩

/-- Claim C10: dpm_prepare resets an -EAGAIN from device_prepare to 0
and continues without marking or moving the device; any other error
stops the phase and is returned with the device name recorded; and a
positive prepare-callback return maps to success with direct_complete
set exactly for the suspend transition. -/
theorem C10_prepare_eagain_and_positive (ev : PMEvent) (fuel : Nat)
    (d : Device) (rest prep : List Device) (stats : SuspendStats)
    (dev : Device) (r : Int) :
    ((device_prepare d ev).2 = -EAGAIN →
      dpm_prepare_go ev (fuel + 1) (d :: rest) prep stats =
        dpm_prepare_go ev fuel ((device_prepare d ev).1 :: rest) prep stats) ∧
    ((device_prepare d ev).2 ≠ 0 → (device_prepare d ev).2 ≠ -EAGAIN →
      dpm_prepare_go ev (fuel + 1) (d :: rest) prep stats =
        ((device_prepare d ev).2, (device_prepare d ev).1 :: rest, prep,
         dpm_save_failed_dev stats (device_prepare d ev).1.name)) ∧
    (dev.syscore = false → dev.no_pm_callbacks = false →
      structured_callback pm_prepare_op
        {dev with wakeup_path := dev.may_wakeup} ev = some r → 0 < r →
      (device_prepare dev ev).2 = 0 ∧
      ((device_prepare dev ev).1.direct_complete = true ↔
        ev = PMEvent.suspend)) := by
  refine ⟨?_, ?_, ?_⟩
  · intro h
    simp [dpm_prepare_go, h, EAGAIN]
  · intro h1 h2
    simp [dpm_prepare_go, h1, h2]
  · intro h1 h2 h3 h4
    have h5 : ¬ (r < 0) := by omega
    simp only [h1, h2] at h3
    simp [device_prepare, h1, h2, h3, h5, h4]

/-- Witness for C2: a set first-error flag suppresses the callback, and
a pending wakeup during the first device (error 0, async_error set to
-EBUSY) stops the drain after that one device. -/
theorem C2_first_error_gates_witness :
    (__device_suspend true (-5) devOk PMEvent.suspend).ranCallback = false ∧
    (__device_suspend true 0 devOk PMEvent.suspend).error = 0 ∧
    (__device_suspend true 0 devOk PMEvent.suspend).asyncError ≠ 0 ∧
    (dpm_suspend_go true PMEvent.suspend [devOk, devOkB] [] 0 {}).processed =
      [devOk.name] ∧
    (dpm_suspend_go true PMEvent.suspend [devOk, devOkB] [] 0 {}).remaining =
      [devOkB].reverse := by
  have h := C2_first_error_gates_new_suspend_work true (-5) devOk devOk
    PMEvent.suspend [devOkB] [] {}
  exact ⟨(h.1 (by decide)).1.1, by decide, by decide,
    (h.2.1 (by decide) (by decide)).1, (h.2.1 (by decide) (by decide)).2⟩

/-- Witness for C5: a successful noirq suspend of a device with the
flag clear reports error 0 through the theorem, and the resume-noirq
callback of a device with the flag clear is skipped. -/
theorem C5_phase_flags_witness :
    (__device_suspend_noirq false 0 devOk PMEvent.suspend).dev.is_noirq_suspended
      = true ∧
    (__device_suspend_noirq false 0 devOk PMEvent.suspend).error = 0 ∧
    (device_resume_noirq devOk PMEvent.resume).ranCallback = false := by
  have h1 := C5_phase_flags_gate_progression false 0 devOk PMEvent.suspend
  have h2 := C5_phase_flags_gate_progression false 0 devOk PMEvent.resume
  exact ⟨by decide, h1.1 (by decide) (by decide), (h2.2.2.2.1 (by decide)).1⟩

/-- Witness for C9: a device whose noirq resume callback fails with -7
still has is_noirq_suspended cleared. -/
theorem C9_resume_flags_witness :
    (device_resume_noirq devFailResumeNoirq PMEvent.resume).error = -7 ∧
    (device_resume_noirq devFailResumeNoirq
      PMEvent.resume).dev.is_noirq_suspended = false := by
  have h := C9_resume_flags_cleared_unconditionally devFailResumeNoirq
    PMEvent.resume
  exact ⟨by decide,
    h.1 (by decide) (by decide) (by decide) (by decide)⟩

/-- Witness for C10 at concrete prepare callbacks: -EAGAIN continues the
drain, a -22 stops it, and a positive return maps to success with
direct_complete set for the suspend event. -/
theorem C10_prepare_witness :
    (device_prepare devPrepareEagain PMEvent.suspend).2 = -EAGAIN ∧
    dpm_prepare_go PMEvent.suspend 1 [devPrepareEagain] [] {} =
      dpm_prepare_go PMEvent.suspend 0
        [(device_prepare devPrepareEagain PMEvent.suspend).1] [] {} ∧
    (device_prepare devPrepareFail PMEvent.suspend).2 = -22 ∧
    dpm_prepare_go PMEvent.suspend 1 [devPrepareFail] [] {} =
      ((device_prepare devPrepareFail PMEvent.suspend).2,
       [(device_prepare devPrepareFail PMEvent.suspend).1], [],
       dpm_save_failed_dev {}
         (device_prepare devPrepareFail PMEvent.suspend).1.name) ∧
    (device_prepare devPreparePositive PMEvent.suspend).2 = 0 ∧
    (device_prepare devPreparePositive PMEvent.suspend).1.direct_complete =
      true := by
  have h1 := C10_prepare_eagain_and_positive PMEvent.suspend 0 devPrepareEagain
    [] [] {} devPreparePositive 2
  have h2 := C10_prepare_eagain_and_positive PMEvent.suspend 0 devPrepareFail
    [] [] {} devPreparePositive 2
  refine ⟨by decide, h1.1 (by decide), by decide,
    h2.2.1 (by decide) (by decide), ?_, ?_⟩
  · exact (h1.2.2 (by decide) (by decide) (by decide) (by decide)).1
  · exact ((h1.2.2 (by decide) (by decide) (by decide) (by decide)).2).mpr rfl
